import Mathlib

/-! Breakout: the game simulation of `src/main.c`

A shallow embedding of the simulation core of `main.c` (collision tests, brick
grid, and the playing loop of `main`) together with theorems about it.

Conventions of the embedding.

* C `int` values are modelled by `Int` (overflow of `int` itself, which no
  position, velocity or score of a game comes near, is not modelled).  The
  narrowing conversions the source performs when it stores an `int` expression
  in an `i8` or `i16` local are modelled explicitly by `toI8` and `toI16`
  (two-complement wrap-around).
* C integer division `/` is `Int.tdiv` (truncation toward zero).
* `typedef.h` is not part of the sources at hand.  `Object`, `Geometry`,
  `Point`, `Rect` and `WallCollision` are declared here with the fields that
  `main.c` reads and writes; their integer fields are modelled by `Int`.
* The arrays `bricks` and `brick_active` are modelled as maps from the index
  to the element.  The source declares them with `MAX_BRICKS = 30` elements
  and indexes them up to `BRICK_ROWS * BRICK_COLS - 1 = 31`; in the model the
  stores at the indices 30 and 31 are ordinary stores.  Drawing calls have no effect on the simulation state and
  are left out; calls to the text and timing facade that the properties speak
  about are recorded in the field `out` of the game state.
* The labels `init_game` and `new_life` and the `while (true)` loop of `main`
  are modelled by the control token `Next` returned by every tick.
-/

namespace Breakout

/-! ## Constants -/

def PADDLE_MOVE_LEFT : Nat := 1
def PADDLE_MOVE_RIGHT : Nat := 3
def SPEED : Int := 8
def MAX_BRICKS : Nat := 30
def BRICK_ROWS : Nat := 4
def BRICK_COLS : Nat := 8
def BRICK_HEIGHT : Int := 4
def SCREEN_WIDTH : Int := 128
def SCREEN_HEIGHT : Int := 64
def MAX_LIVES : Int := 3

/-! ## Machine integers -/

/-- Conversion of an `int` value to `i8` (signed 8 bit, wrap-around). -/
def toI8 (v : Int) : Int := (v + 128) % 256 - 128

/-- Conversion of an `int` value to `i16` (signed 16 bit, wrap-around). -/
def toI16 (v : Int) : Int := (v + 32768) % 65536 - 32768

/-- The C library function `abs` on `int`. -/
def c_abs (v : Int) : Int := if v < 0 then -v else v

/-- The value `v` is representable in `i16`. -/
def fitsI16 (v : Int) : Prop := -32768 ≤ v ∧ v ≤ 32767

/-- The value `v` is representable in `i8`. -/
def fitsI8 (v : Int) : Prop := -128 ≤ v ∧ v ≤ 127

instance (v : Int) : Decidable (fitsI16 v) := by unfold fitsI16; infer_instance
instance (v : Int) : Decidable (fitsI8 v) := by unfold fitsI8; infer_instance

/-! ## Data model -/

/-- Shape descriptor; only the bounding box takes part in the simulation. -/
structure Geometry where
  size_x : Int
  size_y : Int
deriving DecidableEq, Repr

/-- A game object (ball or paddle). -/
structure Object where
  geo : Geometry
  dir_x : Int
  dir_y : Int
  pos_x : Int
  pos_y : Int
deriving DecidableEq, Repr

structure Point where
  x : Int
  y : Int
deriving DecidableEq, Repr

structure Rect where
  origin : Point
  dimen : Point
deriving DecidableEq, Repr

structure WallCollision where
  is_colliding : Bool
  which : Char
deriving DecidableEq, Repr

def ball_geometry : Geometry := { size_x := 4, size_y := 4 }

def paddle_geometry : Geometry := { size_x := 10, size_y := 2 }

/-! ## Collision tests -/

/-- Source: `colliding_with_paddle`, lines 82-102.  All eight locals are `i8`. -/
def colliding_with_paddle (ball paddle : Object) : Bool :=
  let ball_min_x := toI8 ball.pos_x
  let ball_max_x := toI8 (ball.pos_x + ball.geo.size_x)
  let ball_min_y := toI8 ball.pos_y
  let ball_max_y := toI8 (ball.pos_y + ball.geo.size_y)
  let paddle_min_x := toI8 paddle.pos_x
  let paddle_max_x := toI8 (paddle.pos_x + paddle.geo.size_x)
  let paddle_min_y := toI8 paddle.pos_y
  let paddle_max_y := toI8 (paddle.pos_y + paddle.geo.size_y)
  decide (ball_min_x ≤ paddle_max_x)
    && decide (ball_max_x ≥ paddle_min_x)
    && decide (ball_min_y ≤ paddle_max_y)
    && decide (ball_max_y ≥ paddle_min_y)

/-- Source: `colliding_with_brick`, lines 186-206.  All eight locals are `i8`. -/
def colliding_with_brick (ball : Object) (brick : Rect) : Bool :=
  let ball_min_x := toI8 ball.pos_x
  let ball_max_x := toI8 (ball.pos_x + ball.geo.size_x)
  let ball_min_y := toI8 ball.pos_y
  let ball_max_y := toI8 (ball.pos_y + ball.geo.size_y)
  let brick_min_x := toI8 brick.origin.x
  let brick_max_x := toI8 (brick.origin.x + brick.dimen.x)
  let brick_min_y := toI8 brick.origin.y
  let brick_max_y := toI8 (brick.origin.y + brick.dimen.y)
  decide (ball_min_x ≤ brick_max_x)
    && decide (ball_max_x ≥ brick_min_x)
    && decide (ball_min_y ≤ brick_max_y)
    && decide (ball_max_y ≥ brick_min_y)

/-- Source: `check_wall_collision`, lines 132-163.  The four locals are `i16`;
the result of the last branch is `(WallCollision){ false }`, whose `which` is
zero. -/
def check_wall_collision (ball : Object) : WallCollision :=
  let ball_min_x := toI16 ball.pos_x
  let ball_max_x := toI16 (ball.pos_x + ball.geo.size_x)
  let ball_min_y := toI16 ball.pos_y
  let ball_max_y := toI16 (ball.pos_y + ball.geo.size_y)
  if ball_min_x < 1 then { is_colliding := true, which := 'l' }
  else if ball_max_x > SCREEN_WIDTH then { is_colliding := true, which := 'r' }
  else if ball_min_y < 1 then { is_colliding := true, which := 'u' }
  else if ball_max_y > SCREEN_HEIGHT then { is_colliding := true, which := 'd' }
  else { is_colliding := false, which := Char.ofNat 0 }

/-! ## Object operations -/

/-- Source: `move_object`, lines 107-118 (the clear and draw calls left out). -/
def move_object (object : Object) : Object :=
  { object with
    pos_x := object.pos_x + object.dir_x
    pos_y := object.pos_y + object.dir_y }

/-- Source: `set_object_speed`, lines 123-127. -/
def set_object_speed (object : Object) (speed_x speed_y : Int) : Object :=
  { object with dir_x := speed_x, dir_y := speed_y }

/-- Source: `reset_game_objects`, lines 168-181; returns the ball and the
paddle. -/
def reset_game_objects (ball paddle : Object) : Object × Object :=
  ({ ball with
      dir_x := 4
      dir_y := -5
      pos_x := Int.tdiv SCREEN_WIDTH 2 - Int.tdiv ball.geo.size_x 2
      pos_y := SCREEN_HEIGHT - 12 },
   { paddle with
      dir_x := 0
      dir_y := 0
      pos_x := Int.tdiv SCREEN_WIDTH 2 - Int.tdiv paddle.geo.size_x 2
      pos_y := SCREEN_HEIGHT - 6 })

/-! ## Specification-side geometry -/

/-- The closed intervals `[a, a + la]` and `[b, b + lb]` have a common point. -/
def intervals_intersect (a la b lb : Int) : Prop := a ≤ b + lb ∧ b ≤ a + la

instance (a la b lb : Int) : Decidable (intervals_intersect a la b lb) := by
  unfold intervals_intersect; infer_instance

/-- The bounding boxes of two objects intersect on both axes, edges included. -/
def boxes_intersect (a b : Object) : Prop :=
  intervals_intersect a.pos_x a.geo.size_x b.pos_x b.geo.size_x
    ∧ intervals_intersect a.pos_y a.geo.size_y b.pos_y b.geo.size_y

instance (a b : Object) : Decidable (boxes_intersect a b) := by
  unfold boxes_intersect; infer_instance

/-- The bounding box of an object lies inside the screen. -/
def inside_screen (o : Object) : Prop :=
  0 ≤ o.pos_x ∧ o.pos_x + o.geo.size_x ≤ SCREEN_WIDTH
    ∧ 0 ≤ o.pos_y ∧ o.pos_y + o.geo.size_y ≤ SCREEN_HEIGHT

instance (o : Object) : Decidable (inside_screen o) := by
  unfold inside_screen; infer_instance

/-! ## Brick grid -/

/-- Array store `a[i] = v`. -/
def setAt {α : Type} (a : Nat → α) (i : Nat) (v : α) : Nat → α :=
  fun j => if j = i then v else a j

/-- The expression for `actual_brick_width` of `init_bricks` (line 303), with
the screen width, start offset, margin and column count as arguments. -/
def brick_width (screen_width start_x margin_x cols : Int) : Int :=
  Int.tdiv (screen_width - 2 * start_x - (cols - 1) * margin_x) cols

/-- The expression for the x coordinate of a brick origin (line 309). -/
def brick_origin_x (start_x margin_x width col : Int) : Int :=
  start_x + col * (width + margin_x)

/-- The rectangle `init_bricks` stores for `row` and `col` (lines 297-312),
with `brick_margin_x = brick_margin_y = 3` and `start_x = start_y = 4`. -/
def layout_rect (row col : Nat) : Rect :=
  let brick_margin_x : Int := 3
  let brick_margin_y : Int := 3
  let start_x : Int := 4
  let start_y : Int := 4
  let actual_brick_width := brick_width SCREEN_WIDTH start_x brick_margin_x BRICK_COLS
  { origin :=
      { x := brick_origin_x start_x brick_margin_x actual_brick_width col
        y := start_y + row * (BRICK_HEIGHT + brick_margin_y) }
    dimen := { x := actual_brick_width, y := BRICK_HEIGHT } }

/-- The brick arrays together with the running `brick_count` of `init_bricks`. -/
structure Grid where
  bricks : Nat → Rect
  brick_active : Nat → Bool
  brick_count : Int

/-- Body of the inner loop of `init_bricks` (lines 307-316). -/
def init_brick (row col : Nat) (s : Grid) : Grid :=
  let index := row * BRICK_COLS + col
  { bricks := setAt s.bricks index (layout_rect row col)
    brick_active := setAt s.brick_active index true
    brick_count := s.brick_count + 1 }

/-- Source: `init_bricks`, lines 294-321.  The arrays are passed in and
returned; the third component is the returned `brick_count`. -/
def init_bricks (bricks : Nat → Rect) (brick_active : Nat → Bool) : Grid :=
  (List.range BRICK_ROWS).foldl
    (fun s row => (List.range BRICK_COLS).foldl (fun s col => init_brick row col s) s)
    { bricks := bricks, brick_active := brick_active, brick_count := 0 }

/-- The redraw loop at `new_life` (lines 400-426): the rectangle of every
active brick is recomputed from its index and stored again. -/
def redraw_bricks (bricks : Nat → Rect) (brick_active : Nat → Bool) : Nat → Rect :=
  (List.range (BRICK_ROWS * BRICK_COLS)).foldl
    (fun b i => if brick_active i then setAt b i (layout_rect (i / BRICK_COLS) (i % BRICK_COLS)) else b)
    bricks

/-! ## Game state and the playing loop -/

/-- Calls to the text and timing facade, in the order they are made. -/
inductive Event where
  | game_over (score : Int) (win : Bool)
  | display_game_info (score lives : Int)
  | level_complete
  | delay_milli (ms : Int)
deriving DecidableEq, Repr

/-- Where control goes after a tick: the next iteration of the playing loop,
the label `new_life`, or the label `init_game`. -/
inductive Next where
  | loop
  | new_life
  | init_game
deriving DecidableEq, Repr

/-- The objects and the locals of `main`. -/
structure Game where
  ball : Object
  paddle : Object
  bricks : Nat → Rect
  brick_active : Nat → Bool
  score : Int
  lives : Int
  brick_count : Int
  level : Int
  game_speed : Int
  out : List Event

/-- Lines 454-471: the `i8` accumulator `paddle_dx` over the key presses. -/
def paddle_dx (keys : List Nat) : Int :=
  keys.foldl
    (fun dx current_input =>
      if current_input = PADDLE_MOVE_LEFT then toI8 (dx - 1)
      else if current_input = PADDLE_MOVE_RIGHT then toI8 (dx + 1)
      else dx)
    0

/-- Lines 473-480: paddle speed from the input, and the guarded paddle move. -/
def paddle_step (paddle : Object) (keys : List Nat) : Object :=
  let paddle := set_object_speed paddle (paddle_dx keys * SPEED) 0
  if paddle.pos_x + paddle.dir_x ≥ 1
      ∧ paddle.pos_x + paddle.dir_x + paddle.geo.size_x ≤ SCREEN_WIDTH then
    move_object paddle
  else paddle

/-- Lines 486-511: the response to a ball-paddle collision. -/
def paddle_response (ball paddle : Object) : Object :=
  if colliding_with_paddle ball paddle then
    let ball := { ball with dir_y := -(c_abs ball.dir_y) }
    let hit_pos := ball.pos_x - paddle.pos_x
    let paddle_width := paddle.geo.size_x
    if hit_pos < Int.tdiv paddle_width 5 then { ball with dir_x := -3 }
    else if hit_pos < Int.tdiv (paddle_width * 2) 5 then { ball with dir_x := -2 }
    else if hit_pos < Int.tdiv (paddle_width * 3) 5 then
      if ball.dir_x = 0 then { ball with dir_x := 1 } else ball
    else if hit_pos < Int.tdiv (paddle_width * 4) 5 then { ball with dir_x := 2 }
    else { ball with dir_x := 3 }
  else ball

/-- Lines 518-537: the side determination and the reflection on a brick hit.
The six locals are `i8`. -/
def brick_reflect (ball : Object) (brick : Rect) : Object :=
  let ball_cx := toI8 (ball.pos_x + Int.tdiv ball.geo.size_x 2)
  let ball_cy := toI8 (ball.pos_y + Int.tdiv ball.geo.size_y 2)
  let brick_cx := toI8 (brick.origin.x + Int.tdiv brick.dimen.x 2)
  let brick_cy := toI8 (brick.origin.y + Int.tdiv brick.dimen.y 2)
  let dx := toI8 (ball_cx - brick_cx)
  let dy := toI8 (ball_cy - brick_cy)
  let overlap_x := toI8 (Int.tdiv (ball.geo.size_x + brick.dimen.x) 2 - c_abs dx)
  let overlap_y := toI8 (Int.tdiv (ball.geo.size_y + brick.dimen.y) 2 - c_abs dy)
  if overlap_x < overlap_y then { ball with dir_x := ball.dir_x * -1 }
  else { ball with dir_y := ball.dir_y * -1 }

/-- Lines 518-591: everything done for the colliding active brick `i`. -/
def brick_hit (g : Game) (i : Nat) : Game × Next :=
  let g :=
    { g with
      ball := brick_reflect g.ball (g.bricks i)
      brick_active := setAt g.brick_active i false
      score := g.score + 10
      out := g.out ++ [Event.display_game_info (g.score + 10) g.lives]
      brick_count := g.brick_count - 1 }
  if g.brick_count ≤ 0 then
    let grid := init_bricks g.bricks g.brick_active
    ({ g with
        level := g.level + 1
        out := g.out ++ [Event.level_complete, Event.delay_milli 2000]
        game_speed := if g.game_speed > 10 then g.game_speed - 5 else 10
        bricks := grid.bricks
        brick_active := grid.brick_active
        brick_count := grid.brick_count },
      Next.new_life)
  else (g, Next.loop)

/-- The `for` loop of lines 515-594 over the indices still to visit: the first
index whose brick is active and collides is handled and ends the loop. -/
def brick_scan (g : Game) : List Nat → Game × Next
  | [] => (g, Next.loop)
  | i :: rest =>
    if g.brick_active i && colliding_with_brick g.ball (g.bricks i) then brick_hit g i
    else brick_scan g rest

/-- Lines 513-594: the brick handling of one tick. -/
def brick_handling (g : Game) : Game × Next :=
  brick_scan g (List.range (BRICK_ROWS * BRICK_COLS))

/-- Lines 597-629: the wall check and the response to it. -/
def wall_response (g : Game) : Game × Next :=
  let wc := check_wall_collision g.ball
  if wc.is_colliding then
    if wc.which = 'u' then
      ({ g with ball := { g.ball with pos_y := 1, dir_y := g.ball.dir_y * -1 } }, Next.loop)
    else if wc.which = 'l' then
      ({ g with ball := { g.ball with pos_x := 1, dir_x := g.ball.dir_x * -1 } }, Next.loop)
    else if wc.which = 'r' then
      ({ g with
          ball := { g.ball with
                    pos_x := SCREEN_WIDTH - g.ball.geo.size_x - 1
                    dir_x := g.ball.dir_x * -1 } },
        Next.loop)
    else if wc.which = 'd' then
      let g :=
        { g with
          lives := g.lives - 1
          out := g.out ++ [Event.display_game_info g.score (g.lives - 1)] }
      if g.lives ≤ 0 then
        ({ g with out := g.out ++ [Event.game_over g.score false] }, Next.init_game)
      else ({ g with out := g.out ++ [Event.delay_milli 1000] }, Next.new_life)
    else (g, Next.loop)
  else (g, Next.loop)

/-- Lines 631-638: the win check and the pacing delay that ends the tick. -/
def win_check (g : Game) : Game × Next :=
  if g.level ≥ 3 ∧ g.brick_count ≤ 0 then
    ({ g with out := g.out ++ [Event.game_over g.score true] }, Next.init_game)
  else ({ g with out := g.out ++ [Event.delay_milli g.game_speed] }, Next.loop)

/-- Lines 452-511: input, paddle motion, ball motion and the paddle response. -/
def move_phase (g : Game) (keys : List Nat) : Game :=
  let paddle := paddle_step g.paddle keys
  let ball := move_object g.ball
  { g with paddle := paddle, ball := paddle_response ball paddle }

/-- One iteration of the playing loop (lines 450-639) on the key presses
`keys` returned by `keyb()`. -/
def tick (g : Game) (keys : List Nat) : Game × Next :=
  match brick_handling (move_phase g keys) with
  | (g, Next.loop) =>
    match wall_response g with
    | (g, Next.loop) => win_check g
    | r => r
  | r => r

/-- The block at the label `new_life` up to the playing loop (lines 395-447). -/
def new_life (g : Game) : Game :=
  let objs := reset_game_objects g.ball g.paddle
  { g with
    bricks := redraw_bricks g.bricks g.brick_active
    ball := objs.1
    paddle := objs.2
    out := g.out ++ [Event.display_game_info g.score g.lives] }

/-- The block at the label `init_game` once the start key has arrived
(lines 381-393); control then falls through to `new_life`. -/
def init_game (g : Game) : Game :=
  let grid := init_bricks g.bricks g.brick_active
  { g with
    score := 0
    lives := MAX_LIVES
    level := 1
    game_speed := 12
    bricks := grid.bricks
    brick_active := grid.brick_active
    brick_count := grid.brick_count }

/-- The state of `main` when it reaches `init_game` for the first time
(lines 343-379): the static objects and the initialised locals.  The array
`bricks` is not initialised by the source; its entries are given here as
zero rectangles. -/
def start_state : Game :=
  { ball := { geo := ball_geometry, dir_x := 0, dir_y := 0, pos_x := 1, pos_y := 1 }
    paddle := { geo := paddle_geometry, dir_x := 0, dir_y := 0, pos_x := 59, pos_y := 58 }
    bricks := fun _ => { origin := { x := 0, y := 0 }, dimen := { x := 0, y := 0 } }
    brick_active := fun _ => false
    score := 0
    lives := MAX_LIVES
    brick_count := 0
    level := 1
    game_speed := 12
    out := [] }

/-- A run of the playing loop over the successive key snapshots: a tick that
jumps to `new_life` is followed by that block, and the run stops when a tick
jumps to `init_game` (game over or win). -/
def play (g : Game) : List (List Nat) → Game × Next
  | [] => (g, Next.loop)
  | keys :: rest =>
    match tick g keys with
    | (g, Next.loop) => play g rest
    | (g, Next.new_life) => play (new_life g) rest
    | (g, Next.init_game) => (g, Next.init_game)

/-! ## Specification-side predicates on velocities -/

/-- Going from `before` to `after`, exactly one of the velocity components
`dir_x`, `dir_y` is negated (opposite sign, same absolute value) and the other
one is unchanged. -/
def reflects_one_component (before after : Object) : Prop :=
  (after.dir_x = -before.dir_x ∧ c_abs after.dir_x = c_abs before.dir_x
      ∧ after.dir_y = before.dir_y)
    ∨ (after.dir_y = -before.dir_y ∧ c_abs after.dir_y = c_abs before.dir_y
      ∧ after.dir_x = before.dir_x)

instance (a b : Object) : Decidable (reflects_one_component a b) := by
  unfold reflects_one_component; infer_instance

/-- Some active brick of the grid collides with the ball: the condition under
which the scan of lines 515-594 deactivates a brick. -/
def hits_active_brick (g : Game) : Prop :=
  ∃ i, i < BRICK_ROWS * BRICK_COLS
    ∧ g.brick_active i = true ∧ colliding_with_brick g.ball (g.bricks i) = true

/-- A game state with the given ball and paddle placed in `start_state`. -/
def with_objects (ball paddle : Object) : Game :=
  { start_state with ball := ball, paddle := paddle }

/-- The state of a fresh game (all bricks laid out and active, level 1, three
lives) with the ball and the paddle as given. -/
def playing_state (ball paddle : Object) : Game :=
  { new_life (init_game start_state) with ball := ball, paddle := paddle }

instance (g : Game) : Decidable (hits_active_brick g) := by
  unfold hits_active_brick; infer_instance

/-- A playing state at the given level in which brick 0 (origin (4,4), 12 x 4)
is the only active brick, `brick_count` is 1, and the ball at (6,13) moves
with velocity (4,-5), so that the next move brings it onto brick 0. -/
def last_brick_state (level : Int) : Game :=
  { playing_state
      { geo := ball_geometry, dir_x := 4, dir_y := -5, pos_x := 6, pos_y := 13 }
      { geo := paddle_geometry, dir_x := 0, dir_y := 0, pos_x := 59, pos_y := 58 } with
    level := level
    brick_active := fun i => decide (i = 0)
    brick_count := 1 }

/-- A playing state of a fresh game in which brick 0 has been destroyed and
the ball at (2,10) moves with velocity (4,-5) to (6,5), onto the place of
brick 0 and clear of every other brick. -/
def brick_gone_state : Game :=
  { playing_state
      { geo := ball_geometry, dir_x := 4, dir_y := -5, pos_x := 2, pos_y := 10 }
      { geo := paddle_geometry, dir_x := 0, dir_y := 0, pos_x := 59, pos_y := 58 } with
    brick_active := fun i => decide (i ≠ 0)
    brick_count := 31
    score := 10 }

/-- The event list contains a call `game_over(score, true)`, the win screen. -/
def wins (l : List Event) : Bool :=
  l.any (fun e => match e with
    | Event.game_over _ true => true
    | _ => false)

/-- Key snapshots of 178 successive ticks of a game (empty: no key; 3: paddle
right; 1: paddle left), used to exhibit a state the playing loop reaches. -/
def run_keys : List (List Nat) :=
  ([0, 0, 0, 0, 0, 0, 3, 3, 3, 3, 3, 0, 0, 0, 0, 0, 0, 0, 0, 0,
    0, 3, 3, 0, 0, 0, 0, 0, 0, 0, 0, 0, 0, 0, 0, 0, 0, 0, 0, 0,
    0, 0, 0, 0, 0, 0, 0, 0, 0, 0, 3, 3, 3, 3, 3, 3, 3, 0, 0, 0,
    0, 0, 0, 0, 0, 0, 0, 0, 0, 0, 0, 0, 0, 0, 0, 0, 0, 0, 0, 0,
    0, 0, 0, 0, 0, 0, 0, 0, 0, 0, 0, 0, 0, 0, 3, 0, 0, 0, 0, 0,
    0, 0, 0, 0, 0, 0, 0, 0, 0, 0, 0, 0, 3, 3, 3, 3, 3, 3, 0, 0,
    0, 0, 0, 0, 0, 0, 0, 0, 0, 0, 0, 0, 0, 1, 1, 1, 0, 0, 0, 0,
    0, 0, 0, 0, 0, 0, 0, 0, 0, 0, 0, 0, 0, 0, 0, 3, 0, 0, 0, 0,
    0, 0, 0, 0, 0, 0, 0, 0, 0, 0, 0, 0, 0, 0, 0, 0, 0, 3] : List Nat).map
    (fun k => if k = 0 then [] else [k])

/-- Key snapshots of 85 successive ticks of a game, after which the ball at
(1,57) moves with velocity (-3,5) toward the lower left corner. -/
def corner_keys : List (List Nat) :=
  ([0, 0, 0, 0, 0, 3, 3, 3, 3, 3, 3, 0, 0, 0, 0, 0, 0, 0, 0, 0,
    1, 1, 1, 1, 1, 0, 0, 0, 0, 0, 0, 0, 0, 0, 0, 0, 0, 0, 0, 0,
    0, 0, 1, 1, 1, 1, 1, 0, 0, 0, 0, 0, 0, 0, 0, 0, 1, 1, 1, 0,
    0, 0, 0, 0, 0, 0, 3, 3, 3, 3, 3, 0, 0, 0, 0, 0, 0, 0, 0, 0,
    0, 0, 0, 0, 0] : List Nat).map
    (fun k => if k = 0 then [] else [k])

/-- The paddle is the 10 x 2 paddle, horizontally inside the screen with a
margin of 1 on the left, at its fixed height `SCREEN_HEIGHT - 6`. -/
def paddle_in_bounds (paddle : Object) : Prop :=
  paddle.geo = paddle_geometry
    ∧ 1 ≤ paddle.pos_x ∧ paddle.pos_x + paddle.geo.size_x ≤ SCREEN_WIDTH
    ∧ paddle.pos_y = SCREEN_HEIGHT - 6

instance (paddle : Object) : Decidable (paddle_in_bounds paddle) := by
  unfold paddle_in_bounds; infer_instance

/-- A playing state of a fresh game (three lives) in which the ball at (60,58)
moves with velocity (2,5), past the paddle at (59,58), below the screen. -/
def falling_ball_state : Game :=
  playing_state
    { geo := ball_geometry, dir_x := 2, dir_y := 5, pos_x := 60, pos_y := 58 }
    { geo := paddle_geometry, dir_x := 0, dir_y := 0, pos_x := 59, pos_y := 58 }

/-- A rectangle taken as the bounding box of an object at rest: position is
the origin, size is the dimension. -/
def rect_as_object (r : Rect) : Object :=
  { geo := { size_x := r.dimen.x, size_y := r.dimen.y }
    dir_x := 0
    dir_y := 0
    pos_x := r.origin.x
    pos_y := r.origin.y }

/-- The bounding box of an object taken as a rectangle. -/
def object_as_rect (o : Object) : Rect :=
  { origin := { x := o.pos_x, y := o.pos_y }
    dimen := { x := o.geo.size_x, y := o.geo.size_y } }

/-- A playing state of a fresh game in which the ball at (108,32) moves with
velocity (4,-5) to (112,27), onto the last brick of the grid (row 3, column 7,
origin (109,25)) and onto no other brick. -/
def last_index_state : Game :=
  playing_state
    { geo := ball_geometry, dir_x := 4, dir_y := -5, pos_x := 108, pos_y := 32 }
    { geo := paddle_geometry, dir_x := 0, dir_y := 0, pos_x := 59, pos_y := 58 }

/-- A playing state of a fresh game in which the ball at (6,13) moves with
velocity (4,-5) to (10,8), where its box lies on brick 0 and on brick 8. -/
def double_hit_state : Game :=
  playing_state
    { geo := ball_geometry, dir_x := 4, dir_y := -5, pos_x := 6, pos_y := 13 }
    { geo := paddle_geometry, dir_x := 0, dir_y := 0, pos_x := 59, pos_y := 58 }

/-- Overlap depth on the x axis: the sum of the sizes halved, minus the
distance of the centres, each centre taken as origin plus half the size. -/
def overlap_x (ball : Object) (brick : Rect) : Int :=
  Int.tdiv (ball.geo.size_x + brick.dimen.x) 2
    - c_abs ((ball.pos_x + Int.tdiv ball.geo.size_x 2)
        - (brick.origin.x + Int.tdiv brick.dimen.x 2))

/-- Overlap depth on the y axis. -/
def overlap_y (ball : Object) (brick : Rect) : Int :=
  Int.tdiv (ball.geo.size_y + brick.dimen.y) 2
    - c_abs ((ball.pos_y + Int.tdiv ball.geo.size_y 2)
        - (brick.origin.y + Int.tdiv brick.dimen.y 2))

/-- Each value that the side determination of lines 519-530 stores in an `i8`
local is representable in `i8`. -/
def reflect_locals_fit (ball : Object) (brick : Rect) : Prop :=
  fitsI8 (ball.pos_x + Int.tdiv ball.geo.size_x 2)
    ∧ fitsI8 (ball.pos_y + Int.tdiv ball.geo.size_y 2)
    ∧ fitsI8 (brick.origin.x + Int.tdiv brick.dimen.x 2)
    ∧ fitsI8 (brick.origin.y + Int.tdiv brick.dimen.y 2)
    ∧ fitsI8 ((ball.pos_x + Int.tdiv ball.geo.size_x 2)
        - (brick.origin.x + Int.tdiv brick.dimen.x 2))
    ∧ fitsI8 ((ball.pos_y + Int.tdiv ball.geo.size_y 2)
        - (brick.origin.y + Int.tdiv brick.dimen.y 2))
    ∧ fitsI8 (overlap_x ball brick)
    ∧ fitsI8 (overlap_y ball brick)

instance (ball : Object) (brick : Rect) : Decidable (reflect_locals_fit ball brick) := by
  unfold reflect_locals_fit; infer_instance

/-- The closed box of an object and the closed box of a rectangle intersect
on both axes. -/
def box_meets_rect (ball : Object) (r : Rect) : Prop :=
  intervals_intersect ball.pos_x ball.geo.size_x r.origin.x r.dimen.x
    ∧ intervals_intersect ball.pos_y ball.geo.size_y r.origin.y r.dimen.y

instance (ball : Object) (r : Rect) : Decidable (box_meets_rect ball r) := by
  unfold box_meets_rect; infer_instance

/-- Key snapshots of 108 successive ticks of a game, after which the ball at
(1,2) moves with velocity (-3,-5) toward the upper left corner. -/
def top_corner_keys : List (List Nat) :=
  ([0, 0, 0, 0, 0, 0, 0, 0, 0, 0, 0, 0, 0, 0, 0, 0, 0, 0, 0, 0,
    0, 0, 0, 0, 3, 0, 0, 0, 0, 0, 0, 0, 1, 1, 1, 1, 1, 0, 0, 0,
    0, 0, 0, 0, 0, 0, 1, 1, 1, 0, 0, 0, 0, 0, 0, 0, 0, 0, 0, 3,
    3, 0, 0, 0, 0, 0, 0, 0, 0, 0, 0, 0, 0, 0, 0, 0, 3, 0, 0, 0,
    0, 0, 0, 0, 0, 0, 0, 0, 0, 0, 0, 0, 0, 0, 0, 0, 3, 0, 0, 0,
    0, 0, 0, 0, 0, 0, 0, 0] : List Nat).map
    (fun k => if k = 0 then [] else [k])

/-- The number of indices `i < BRICK_ROWS * BRICK_COLS` whose active flag is
true. -/
def active_count (brick_active : Nat → Bool) : Nat :=
  (List.range (BRICK_ROWS * BRICK_COLS)).countP (fun i => brick_active i)

/-- The counter `brick_count` equals the number of active bricks. -/
def count_matches (g : Game) : Prop :=
  g.brick_count = (active_count g.brick_active : Int)

instance (g : Game) : Decidable (count_matches g) := by
  unfold count_matches; infer_instance

/-! # Properties -/

/-! ## Machine integer lemmas -/

theorem toI8_of_fits (v : Int) (h : fitsI8 v) : toI8 v = v := by
  unfold fitsI8 at h
  unfold toI8
  omega

theorem toI16_of_fits (v : Int) (h : fitsI16 v) : toI16 v = v := by
  unfold fitsI16 at h
  unfold toI16
  omega

theorem c_abs_neg (v : Int) : c_abs (-v) = c_abs v := by
  unfold c_abs
  split_ifs <;> omega

/-- When none of the eight `i8` locals wraps, `colliding_with_paddle` is the
closed-box intersection test. -/
theorem colliding_with_paddle_iff_of_fits (ball paddle : Object)
    (h1 : fitsI8 ball.pos_x) (h2 : fitsI8 (ball.pos_x + ball.geo.size_x))
    (h3 : fitsI8 ball.pos_y) (h4 : fitsI8 (ball.pos_y + ball.geo.size_y))
    (h5 : fitsI8 paddle.pos_x) (h6 : fitsI8 (paddle.pos_x + paddle.geo.size_x))
    (h7 : fitsI8 paddle.pos_y) (h8 : fitsI8 (paddle.pos_y + paddle.geo.size_y)) :
    colliding_with_paddle ball paddle = true ↔ boxes_intersect ball paddle := by
  simp only [colliding_with_paddle, toI8_of_fits _ h1, toI8_of_fits _ h2, toI8_of_fits _ h3,
    toI8_of_fits _ h4, toI8_of_fits _ h5, toI8_of_fits _ h6, toI8_of_fits _ h7,
    toI8_of_fits _ h8, boxes_intersect, intervals_intersect, Bool.and_eq_true,
    decide_eq_true_eq, ge_iff_le]
  tauto

set_option maxRecDepth 1000000 in
/-- C1 (defect): the ball box [124,128] x [56,60] and the paddle box
[115,125] x [58,60] both lie inside the 128 x 64 screen and intersect on both
axes, yet `colliding_with_paddle` returns false: the `i8` local `ball_max_x`
holds 124 + 4 = 128 wrapped to -128.  These are the very arguments the playing
loop passes to `colliding_with_paddle` in tick 179 of the game played from
`init_game` with the key snapshots `run_keys` followed by a press of key 3. -/
theorem C1_colliding_with_paddle_wraps_at_right_edge :
    inside_screen { geo := ball_geometry, dir_x := 3, dir_y := 5, pos_x := 124, pos_y := 56 }
      ∧ inside_screen { geo := paddle_geometry, dir_x := 8, dir_y := 0, pos_x := 115, pos_y := 58 }
      ∧ boxes_intersect
          { geo := ball_geometry, dir_x := 3, dir_y := 5, pos_x := 124, pos_y := 56 }
          { geo := paddle_geometry, dir_x := 8, dir_y := 0, pos_x := 115, pos_y := 58 }
      ∧ toI8 (124 + ball_geometry.size_x) = -128
      ∧ colliding_with_paddle
          { geo := ball_geometry, dir_x := 3, dir_y := 5, pos_x := 124, pos_y := 56 }
          { geo := paddle_geometry, dir_x := 8, dir_y := 0, pos_x := 115, pos_y := 58 } = false
      ∧ (play (new_life (init_game start_state)) run_keys).2 = Next.loop
      ∧ move_object (play (new_life (init_game start_state)) run_keys).1.ball
          = { geo := ball_geometry, dir_x := 3, dir_y := 5, pos_x := 124, pos_y := 56 }
      ∧ paddle_step (play (new_life (init_game start_state)) run_keys).1.paddle [3]
          = { geo := paddle_geometry, dir_x := 8, dir_y := 0, pos_x := 115, pos_y := 58 } := by
  decide

/-- C2: when the ball coordinates are representable in the `i16` locals,
`check_wall_collision` reports the first edge in the order left, right, top,
bottom whose condition holds, reports no collision exactly when none holds,
and a ball violating both the left and the top bound is reported as left,
not as top. -/
theorem C2_check_wall_collision_priority (ball : Object)
    (hx : fitsI16 ball.pos_x) (hX : fitsI16 (ball.pos_x + ball.geo.size_x))
    (hy : fitsI16 ball.pos_y) (hY : fitsI16 (ball.pos_y + ball.geo.size_y)) :
    (ball.pos_x < 1 →
        check_wall_collision ball = { is_colliding := true, which := 'l' })
      ∧ (¬ ball.pos_x < 1 → ball.pos_x + ball.geo.size_x > SCREEN_WIDTH →
        check_wall_collision ball = { is_colliding := true, which := 'r' })
      ∧ (¬ ball.pos_x < 1 → ¬ ball.pos_x + ball.geo.size_x > SCREEN_WIDTH → ball.pos_y < 1 →
        check_wall_collision ball = { is_colliding := true, which := 'u' })
      ∧ (¬ ball.pos_x < 1 → ¬ ball.pos_x + ball.geo.size_x > SCREEN_WIDTH → ¬ ball.pos_y < 1 →
          ball.pos_y + ball.geo.size_y > SCREEN_HEIGHT →
        check_wall_collision ball = { is_colliding := true, which := 'd' })
      ∧ ((check_wall_collision ball).is_colliding = false ↔
          (¬ ball.pos_x < 1 ∧ ¬ ball.pos_x + ball.geo.size_x > SCREEN_WIDTH
            ∧ ¬ ball.pos_y < 1 ∧ ¬ ball.pos_y + ball.geo.size_y > SCREEN_HEIGHT))
      ∧ (ball.pos_x < 1 → ball.pos_y < 1 →
          (check_wall_collision ball).which = 'l' ∧ (check_wall_collision ball).which ≠ 'u') := by
  simp only [check_wall_collision, toI16_of_fits _ hx, toI16_of_fits _ hX, toI16_of_fits _ hy,
    toI16_of_fits _ hY]
  refine ⟨?_, ?_, ?_, ?_, ?_, ?_⟩
  · intro h; simp [h]
  · intro h1 h2; simp [h1, h2]
  · intro h1 h2 h3; simp [h1, h2, h3]
  · intro h1 h2 h3 h4; simp [h1, h2, h3, h4]
  · split_ifs <;> simp_all
  · intro h _; simp [h]

/-- C2 at the ball at (-2,-3), which violates the left and the top bound. -/
theorem C2_check_wall_collision_priority_witness :
    (fitsI16 (-2) ∧ fitsI16 (-2 + 4) ∧ fitsI16 (-3) ∧ fitsI16 (-3 + 4))
      ∧ (-2 : Int) < 1 ∧ (-3 : Int) < 1
      ∧ (check_wall_collision
            { geo := ball_geometry, dir_x := -4, dir_y := -5, pos_x := -2, pos_y := -3 }).which = 'l'
      ∧ (check_wall_collision
            { geo := ball_geometry, dir_x := -4, dir_y := -5, pos_x := -2, pos_y := -3 }).which ≠ 'u' :=
  ⟨by decide, by decide, by decide,
    (C2_check_wall_collision_priority
      { geo := ball_geometry, dir_x := -4, dir_y := -5, pos_x := -2, pos_y := -3 }
      (by decide) (by decide) (by decide) (by decide)).2.2.2.2.2 (by decide) (by decide)⟩

/-- C3: a ball with `pos_x < 1` (in particular `min_x = 0`) is reported as a
left collision and the response sets `pos_x` to 1 and negates `dir_x`; a right
result sets `pos_x` to `SCREEN_WIDTH - size_x - 1` and negates `dir_x`; a top
result sets `pos_y` to 1 and negates `dir_y`.  Each response leaves the other
coordinate and the other velocity component unchanged and stays in the loop. -/
theorem C3_wall_response_clamps_and_reflects (g : Game) :
    (fitsI16 g.ball.pos_x → g.ball.pos_x < 1 →
        check_wall_collision g.ball = { is_colliding := true, which := 'l' }
          ∧ (wall_response g).2 = Next.loop
          ∧ (wall_response g).1.ball.pos_x = 1
          ∧ (wall_response g).1.ball.dir_x = -g.ball.dir_x
          ∧ (wall_response g).1.ball.pos_y = g.ball.pos_y
          ∧ (wall_response g).1.ball.dir_y = g.ball.dir_y)
      ∧ (check_wall_collision g.ball = { is_colliding := true, which := 'r' } →
          (wall_response g).2 = Next.loop
          ∧ (wall_response g).1.ball.pos_x = SCREEN_WIDTH - g.ball.geo.size_x - 1
          ∧ (wall_response g).1.ball.dir_x = -g.ball.dir_x
          ∧ (wall_response g).1.ball.pos_y = g.ball.pos_y
          ∧ (wall_response g).1.ball.dir_y = g.ball.dir_y)
      ∧ (check_wall_collision g.ball = { is_colliding := true, which := 'u' } →
          (wall_response g).2 = Next.loop
          ∧ (wall_response g).1.ball.pos_y = 1
          ∧ (wall_response g).1.ball.dir_y = -g.ball.dir_y
          ∧ (wall_response g).1.ball.pos_x = g.ball.pos_x
          ∧ (wall_response g).1.ball.dir_x = g.ball.dir_x) := by
  refine ⟨?_, ?_, ?_⟩
  · intro hx hlt
    have hl : check_wall_collision g.ball = { is_colliding := true, which := 'l' } := by
      simp [check_wall_collision, toI16_of_fits _ hx, hlt]
    refine ⟨hl, ?_⟩
    simp [wall_response, hl]
  · intro hr
    simp [wall_response, hr]
  · intro hu
    simp [wall_response, hu]

/-- C3 at the ball at (0,30) with velocity (-4,5): reported as left, moved to
x = 1 with velocity (4,5). -/
theorem C3_wall_response_clamps_and_reflects_witness :
    (fitsI16 0 ∧ (0 : Int) < 1)
      ∧ (check_wall_collision
            { geo := ball_geometry, dir_x := -4, dir_y := 5, pos_x := 0, pos_y := 30 }
          = { is_colliding := true, which := 'l' }
        ∧ (wall_response (with_objects
            { geo := ball_geometry, dir_x := -4, dir_y := 5, pos_x := 0, pos_y := 30 }
            { geo := paddle_geometry, dir_x := 0, dir_y := 0, pos_x := 59, pos_y := 58 })).2
          = Next.loop
        ∧ (wall_response (with_objects
            { geo := ball_geometry, dir_x := -4, dir_y := 5, pos_x := 0, pos_y := 30 }
            { geo := paddle_geometry, dir_x := 0, dir_y := 0, pos_x := 59, pos_y := 58 })).1.ball.pos_x
          = 1
        ∧ (wall_response (with_objects
            { geo := ball_geometry, dir_x := -4, dir_y := 5, pos_x := 0, pos_y := 30 }
            { geo := paddle_geometry, dir_x := 0, dir_y := 0, pos_x := 59, pos_y := 58 })).1.ball.dir_x
          = 4
        ∧ (wall_response (with_objects
            { geo := ball_geometry, dir_x := -4, dir_y := 5, pos_x := 0, pos_y := 30 }
            { geo := paddle_geometry, dir_x := 0, dir_y := 0, pos_x := 59, pos_y := 58 })).1.ball.pos_y
          = 30
        ∧ (wall_response (with_objects
            { geo := ball_geometry, dir_x := -4, dir_y := 5, pos_x := 0, pos_y := 30 }
            { geo := paddle_geometry, dir_x := 0, dir_y := 0, pos_x := 59, pos_y := 58 })).1.ball.dir_y
          = 5) :=
  ⟨by decide,
    (C3_wall_response_clamps_and_reflects (with_objects
      { geo := ball_geometry, dir_x := -4, dir_y := 5, pos_x := 0, pos_y := 30 }
      { geo := paddle_geometry, dir_x := 0, dir_y := 0, pos_x := 59, pos_y := 58 })).1
      (by decide) (by decide)⟩

theorem brick_reflect_reflects_one (ball : Object) (brick : Rect) :
    reflects_one_component ball (brick_reflect ball brick) := by
  unfold reflects_one_component brick_reflect
  simp only []
  split_ifs
  · left
    simp [c_abs_neg]
  · right
    simp [c_abs_neg]

/-- C4 (as stated, refuted): a ball at (60,61) with velocity (2,5) is reported
as a wall collision (bottom), and the response negates neither velocity
component; after the jump to `new_life` the velocity is (4,-5), which is not
the old velocity with one component negated either. -/
theorem C4_bottom_response_does_not_reflect :
    (check_wall_collision
        { geo := ball_geometry, dir_x := 2, dir_y := 5, pos_x := 60, pos_y := 61 }).is_colliding
        = true
      ∧ ¬ reflects_one_component
          { geo := ball_geometry, dir_x := 2, dir_y := 5, pos_x := 60, pos_y := 61 }
          (wall_response (with_objects
            { geo := ball_geometry, dir_x := 2, dir_y := 5, pos_x := 60, pos_y := 61 }
            { geo := paddle_geometry, dir_x := 0, dir_y := 0, pos_x := 59, pos_y := 58 })).1.ball
      ∧ ¬ reflects_one_component
          { geo := ball_geometry, dir_x := 2, dir_y := 5, pos_x := 60, pos_y := 61 }
          (new_life (wall_response (with_objects
            { geo := ball_geometry, dir_x := 2, dir_y := 5, pos_x := 60, pos_y := 61 }
            { geo := paddle_geometry, dir_x := 0, dir_y := 0, pos_x := 59, pos_y := 58 })).1).ball := by
  decide

/-- C4 (amended): the response to a left, right or top wall collision and the
response to a colliding active brick negate exactly one velocity component
(opposite sign, same absolute value) and leave the other unchanged; the
response to a bottom wall collision does not touch the ball. -/
theorem C4_reflection_conservation (g : Game) (i : Nat) :
    ((check_wall_collision g.ball).is_colliding = true →
        (check_wall_collision g.ball).which ≠ 'd' →
        reflects_one_component g.ball (wall_response g).1.ball)
      ∧ ((check_wall_collision g.ball).is_colliding = true →
        (check_wall_collision g.ball).which = 'd' →
        (wall_response g).1.ball = g.ball)
      ∧ reflects_one_component g.ball (brick_hit g i).1.ball := by
  refine ⟨?_, ?_, ?_⟩
  · intro hc hd
    have hcases : (check_wall_collision g.ball).which = 'l'
        ∨ (check_wall_collision g.ball).which = 'r'
        ∨ (check_wall_collision g.ball).which = 'u'
        ∨ (check_wall_collision g.ball).which = 'd'
        ∨ (check_wall_collision g.ball).is_colliding = false := by
      unfold check_wall_collision
      simp only []
      split_ifs <;> simp
    rcases hcases with h | h | h | h | h
    · simp [wall_response, hc, h, reflects_one_component, c_abs_neg]
    · simp [wall_response, hc, h, reflects_one_component, c_abs_neg]
    · simp [wall_response, hc, h, reflects_one_component, c_abs_neg]
    · exact absurd h hd
    · rw [hc] at h; exact absurd h (by decide)
  · intro hc hd
    unfold wall_response
    simp only [hc, hd]
    split_ifs <;> simp_all
  · have h := brick_reflect_reflects_one g.ball (g.bricks i)
    unfold brick_hit
    simp only []
    split_ifs <;> exact h

/-- C4 (amended) at the ball at (126,30) with velocity (4,-5), a right wall
collision. -/
theorem C4_reflection_conservation_witness :
    ((check_wall_collision
          { geo := ball_geometry, dir_x := 4, dir_y := -5, pos_x := 126, pos_y := 30 }).is_colliding
          = true
        ∧ (check_wall_collision
          { geo := ball_geometry, dir_x := 4, dir_y := -5, pos_x := 126, pos_y := 30 }).which ≠ 'd')
      ∧ reflects_one_component
          { geo := ball_geometry, dir_x := 4, dir_y := -5, pos_x := 126, pos_y := 30 }
          (wall_response (with_objects
            { geo := ball_geometry, dir_x := 4, dir_y := -5, pos_x := 126, pos_y := 30 }
            { geo := paddle_geometry, dir_x := 0, dir_y := 0, pos_x := 59, pos_y := 58 })).1.ball :=
  ⟨by decide,
    (C4_reflection_conservation (with_objects
      { geo := ball_geometry, dir_x := 4, dir_y := -5, pos_x := 126, pos_y := 30 }
      { geo := paddle_geometry, dir_x := 0, dir_y := 0, pos_x := 59, pos_y := 58 }) 0).1
      (by decide) (by decide)⟩

/-- C5 (as stated, refuted): from the ball at (63,60) with velocity (0,5) and
the paddle at (59,58), with no key pressed, the tick does not report a
ball-paddle collision and does not leave `dir_y` negative. -/
theorem C5_scenario_no_paddle_collision :
    colliding_with_paddle
        (move_object { geo := ball_geometry, dir_x := 0, dir_y := 5, pos_x := 63, pos_y := 60 })
        (paddle_step
          { geo := paddle_geometry, dir_x := 0, dir_y := 0, pos_x := 59, pos_y := 58 } [])
        = false
      ∧ ¬ (tick (playing_state
            { geo := ball_geometry, dir_x := 0, dir_y := 5, pos_x := 63, pos_y := 60 }
            { geo := paddle_geometry, dir_x := 0, dir_y := 0, pos_x := 59, pos_y := 58 }) []).1.ball.dir_y < 0 := by
  decide

/-- C5 (amended): in a tick starting with the ball at (63,60) moving with
velocity (0,5), the paddle at (59,58) and no key pressed, the ball is moved to
(63,65), below the paddle box; `colliding_with_paddle` is false there, the
paddle response leaves `dir_y = 5`, and the wall check reports the bottom wall.
The collision with an upward `dir_y = -5` is what a ball gets that the move
brings to (63,60), that is one starting the tick at (63,55). -/
theorem C5_scenario_amended (g : Game)
    (hb : g.ball = { geo := ball_geometry, dir_x := 0, dir_y := 5, pos_x := 63, pos_y := 60 })
    (hp : g.paddle.geo = paddle_geometry ∧ g.paddle.pos_x = 59 ∧ g.paddle.pos_y = 58) :
    move_object g.ball
        = { geo := ball_geometry, dir_x := 0, dir_y := 5, pos_x := 63, pos_y := 65 }
      ∧ colliding_with_paddle (move_object g.ball) (paddle_step g.paddle []) = false
      ∧ (move_phase g []).ball.dir_y = 5
      ∧ check_wall_collision (move_phase g []).ball = { is_colliding := true, which := 'd' }
      ∧ colliding_with_paddle
          (move_object { g.ball with pos_y := 55 }) (paddle_step g.paddle []) = true
      ∧ (move_phase { g with ball := { g.ball with pos_y := 55 } } []).ball.dir_y = -5 := by
  obtain ⟨hg, hx, hy⟩ := hp
  have hpad : paddle_step g.paddle []
      = { geo := paddle_geometry, dir_x := 0, dir_y := 0, pos_x := 59, pos_y := 58 } := by
    cases hq : g.paddle with
    | mk geo dx dy px py =>
      rw [hq] at hg hx hy
      simp only at hg hx hy
      subst hg hx hy
      rfl
  have hmove : move_phase g [] = { g with
      paddle := paddle_step g.paddle []
      ball := paddle_response (move_object g.ball) (paddle_step g.paddle []) } := rfl
  have hmove2 : move_phase { g with ball := { g.ball with pos_y := 55 } } [] =
      { g with
        paddle := paddle_step g.paddle []
        ball := paddle_response (move_object { g.ball with pos_y := 55 })
          (paddle_step g.paddle []) } := rfl
  rw [hmove, hmove2, hpad, hb]
  exact ⟨rfl, rfl, rfl, rfl, rfl, rfl⟩

/-- C5 (amended) at the scenario placed in a fresh game. -/
theorem C5_scenario_amended_witness :
    ((playing_state
          { geo := ball_geometry, dir_x := 0, dir_y := 5, pos_x := 63, pos_y := 60 }
          { geo := paddle_geometry, dir_x := 0, dir_y := 0, pos_x := 59, pos_y := 58 }).ball
        = { geo := ball_geometry, dir_x := 0, dir_y := 5, pos_x := 63, pos_y := 60 })
      ∧ check_wall_collision (move_phase (playing_state
          { geo := ball_geometry, dir_x := 0, dir_y := 5, pos_x := 63, pos_y := 60 }
          { geo := paddle_geometry, dir_x := 0, dir_y := 0, pos_x := 59, pos_y := 58 }) []).ball
        = { is_colliding := true, which := 'd' } :=
  ⟨rfl,
    (C5_scenario_amended (playing_state
      { geo := ball_geometry, dir_x := 0, dir_y := 5, pos_x := 63, pos_y := 60 }
      { geo := paddle_geometry, dir_x := 0, dir_y := 0, pos_x := 59, pos_y := 58 })
      rfl ⟨rfl, rfl, rfl⟩).2.2.2.1⟩

theorem init_bricks_rect (bricks : Nat → Rect) (brick_active : Nat → Bool) (i : Nat)
    (hi : i < BRICK_ROWS * BRICK_COLS) :
    (init_bricks bricks brick_active).bricks i = layout_rect (i / BRICK_COLS) (i % BRICK_COLS) := by
  have hi32 : i < 32 := hi
  interval_cases i <;> rfl

theorem init_bricks_active (bricks : Nat → Rect) (brick_active : Nat → Bool) (i : Nat)
    (hi : i < BRICK_ROWS * BRICK_COLS) :
    (init_bricks bricks brick_active).brick_active i = true := by
  have hi32 : i < 32 := hi
  interval_cases i <;> rfl

theorem init_bricks_count (bricks : Nat → Rect) (brick_active : Nat → Bool) :
    (init_bricks bricks brick_active).brick_count = 32 := rfl

/-- C6: with the width and origin formulas of `init_bricks`, whenever the
column count is at least 1, the start offset is non-negative and the derived
width is positive (for any margin, in particular a non-negative one), the right
edge of the rightmost brick does not exceed the screen width; with the constants of the program every brick has
width 12 and the eighth brick of each row has right edge 121. -/
theorem C6_brick_layout_fits_screen (screen_width start_x margin_x cols : Int)
    (bricks : Nat → Rect) (brick_active : Nat → Bool)
    (hc : 1 ≤ cols) (hs : 0 ≤ start_x)
    (hw : 0 < brick_width screen_width start_x margin_x cols) :
    brick_origin_x start_x margin_x (brick_width screen_width start_x margin_x cols) (cols - 1)
        + brick_width screen_width start_x margin_x cols ≤ screen_width
      ∧ brick_width SCREEN_WIDTH 4 3 BRICK_COLS = 12
      ∧ (∀ i, i < BRICK_ROWS * BRICK_COLS →
          ((init_bricks bricks brick_active).bricks i).dimen.x = 12)
      ∧ (∀ row, row < BRICK_ROWS →
          ((init_bricks bricks brick_active).bricks (row * BRICK_COLS + 7)).origin.x
            + ((init_bricks bricks brick_active).bricks (row * BRICK_COLS + 7)).dimen.x = 121) := by
  refine ⟨?_, by decide, ?_, ?_⟩
  · unfold brick_origin_x
    unfold brick_width at hw ⊢
    set n := screen_width - 2 * start_x - (cols - 1) * margin_x with hn
    have hcpos : 0 < cols := by omega
    have hnpos : 0 ≤ n := by
      by_contra hneg
      push_neg at hneg
      have h1 : Int.tdiv n cols ≤ 0 := by
        have h2 : Int.tdiv (-n) cols = -(Int.tdiv n cols) := Int.neg_tdiv n cols
        have h3 : 0 ≤ Int.tdiv (-n) cols := Int.tdiv_nonneg (by omega) (by omega)
        omega
      omega
    have hdiv : Int.tdiv n cols = n / cols := Int.tdiv_eq_ediv hnpos (by omega)
    rw [hdiv] at hw ⊢
    have hle : n / cols * cols ≤ n := Int.ediv_mul_le n (by omega)
    have hexp : start_x + (cols - 1) * (n / cols + margin_x) + n / cols
        = start_x + n / cols * cols + (cols - 1) * margin_x := by ring
    rw [hexp]
    have : screen_width = n + 2 * start_x + (cols - 1) * margin_x := by rw [hn]; ring
    linarith
  · intro i hi
    rw [init_bricks_rect bricks brick_active i hi]
    rfl
  · intro row hrow
    have hr4 : row < 4 := hrow
    interval_cases row <;> rfl

/-- C6 at the constants of the program. -/
theorem C6_brick_layout_fits_screen_witness :
    ((1 : Int) ≤ 8 ∧ (0 : Int) ≤ 4 ∧ 0 < brick_width 128 4 3 8)
      ∧ brick_origin_x 4 3 (brick_width 128 4 3 8) (8 - 1) + brick_width 128 4 3 8 ≤ 128 :=
  ⟨by decide,
    (C6_brick_layout_fits_screen 128 4 3 8 start_state.bricks start_state.brick_active
      (by decide) (by decide) (by decide)).1⟩

/-! ## The brick scan -/

theorem brick_scan_no_hit (g : Game) (l : List Nat)
    (h : ∀ i ∈ l, g.brick_active i = true → colliding_with_brick g.ball (g.bricks i) = false) :
    brick_scan g l = (g, Next.loop) := by
  induction l with
  | nil => rfl
  | cons i rest ih =>
    have hi := h i (List.mem_cons_self i rest)
    have hc : (g.brick_active i && colliding_with_brick g.ball (g.bricks i)) = false := by
      cases ha : g.brick_active i
      · rfl
      · simp [hi ha]
    simp only [brick_scan, hc]
    exact ih (fun j hj => h j (List.mem_cons_of_mem i hj))

theorem brick_scan_hit (g : Game) (l : List Nat)
    (h : ∃ i ∈ l, g.brick_active i = true ∧ colliding_with_brick g.ball (g.bricks i) = true) :
    ∃ i ∈ l, g.brick_active i = true ∧ colliding_with_brick g.ball (g.bricks i) = true
      ∧ brick_scan g l = brick_hit g i := by
  induction l with
  | nil =>
    obtain ⟨i, hi, _⟩ := h
    exact absurd hi (List.not_mem_nil i)
  | cons j rest ih =>
    by_cases hj : (g.brick_active j && colliding_with_brick g.ball (g.bricks j)) = true
    · refine ⟨j, List.mem_cons_self j rest, ?_, ?_, ?_⟩
      · exact (Bool.and_eq_true_iff.mp hj).1
      · exact (Bool.and_eq_true_iff.mp hj).2
      · simp only [brick_scan, hj, if_true]
    · have hrest : ∃ i ∈ rest, g.brick_active i = true
          ∧ colliding_with_brick g.ball (g.bricks i) = true := by
        obtain ⟨i, hi, ha, hc⟩ := h
        rcases List.mem_cons.mp hi with rfl | hi
        · exact absurd (by simp [ha, hc]) hj
        · exact ⟨i, hi, ha, hc⟩
      obtain ⟨i, hi, ha, hc, hs⟩ := ih hrest
      refine ⟨i, List.mem_cons_of_mem j hi, ha, hc, ?_⟩
      simp only [brick_scan, hj]
      exact hs

theorem brick_handling_no_hit (g : Game) (h : ¬ hits_active_brick g) :
    brick_handling g = (g, Next.loop) := by
  apply brick_scan_no_hit
  intro i hi ha
  cases hc : colliding_with_brick g.ball (g.bricks i)
  · rfl
  · exact absurd ⟨i, List.mem_range.mp hi, ha, hc⟩ h

theorem brick_handling_hit (g : Game) (h : hits_active_brick g) :
    ∃ i, i < BRICK_ROWS * BRICK_COLS ∧ g.brick_active i = true
      ∧ colliding_with_brick g.ball (g.bricks i) = true
      ∧ brick_handling g = brick_hit g i := by
  obtain ⟨i, hi, ha, hc⟩ := h
  obtain ⟨j, hj, ha, hc, hs⟩ :=
    brick_scan_hit g (List.range (BRICK_ROWS * BRICK_COLS)) ⟨i, List.mem_range.mpr hi, ha, hc⟩
  exact ⟨j, List.mem_range.mp hj, ha, hc, hs⟩

theorem brick_hit_score (g : Game) (i : Nat) : (brick_hit g i).1.score = g.score + 10 := by
  unfold brick_hit
  simp only []
  split_ifs <;> rfl

theorem wall_response_score (g : Game) : (wall_response g).1.score = g.score := by
  unfold wall_response
  simp only []
  split_ifs <;> rfl

theorem wall_response_brick_active (g : Game) :
    (wall_response g).1.brick_active = g.brick_active := by
  unfold wall_response
  simp only []
  split_ifs <;> rfl

theorem win_check_score (g : Game) : (win_check g).1.score = g.score := by
  unfold win_check
  split_ifs <;> rfl

theorem win_check_brick_active (g : Game) : (win_check g).1.brick_active = g.brick_active := by
  unfold win_check
  split_ifs <;> rfl

/-- The part of a tick after the brick handling keeps score and flags. -/
theorem tick_score_of_handling (g : Game) (keys : List Nat) :
    (tick g keys).1.score = (brick_handling (move_phase g keys)).1.score
      ∧ (tick g keys).1.brick_active = (brick_handling (move_phase g keys)).1.brick_active := by
  unfold tick
  rcases hb : brick_handling (move_phase g keys) with ⟨g1, n1⟩
  cases n1
  · simp only []
    rcases hw : wall_response g1 with ⟨g2, n2⟩
    have hs : g2.score = g1.score := by
      have := wall_response_score g1
      rw [hw] at this
      exact this
    have ha : g2.brick_active = g1.brick_active := by
      have := wall_response_brick_active g1
      rw [hw] at this
      exact this
    cases n2
    · simp only []
      rw [win_check_score, win_check_brick_active]
      exact ⟨hs, ha⟩
    · exact ⟨hs, ha⟩
    · exact ⟨hs, ha⟩
  · exact ⟨rfl, rfl⟩
  · exact ⟨rfl, rfl⟩

theorem move_phase_frame (g : Game) (keys : List Nat) :
    (move_phase g keys).score = g.score ∧ (move_phase g keys).brick_active = g.brick_active
      ∧ (move_phase g keys).bricks = g.bricks ∧ (move_phase g keys).brick_count = g.brick_count
      ∧ (move_phase g keys).lives = g.lives ∧ (move_phase g keys).level = g.level
      ∧ (move_phase g keys).game_speed = g.game_speed ∧ (move_phase g keys).out = g.out :=
  ⟨rfl, rfl, rfl, rfl, rfl, rfl, rfl, rfl⟩

theorem tick_score (g : Game) (keys : List Nat) :
    (hits_active_brick (move_phase g keys) → (tick g keys).1.score = g.score + 10)
      ∧ (¬ hits_active_brick (move_phase g keys) →
          (tick g keys).1.score = g.score ∧ (tick g keys).1.brick_active = g.brick_active) := by
  obtain ⟨hs, ha⟩ := tick_score_of_handling g keys
  constructor
  · intro h
    obtain ⟨i, _, _, _, hb⟩ := brick_handling_hit _ h
    rw [hs, hb, brick_hit_score]
    rfl
  · intro h
    rw [hs, ha, brick_handling_no_hit _ h]
    exact ⟨rfl, rfl⟩

theorem tick_score_le (g : Game) (keys : List Nat) : g.score ≤ (tick g keys).1.score := by
  by_cases h : hits_active_brick (move_phase g keys)
  · rw [(tick_score g keys).1 h]; omega
  · rw [((tick_score g keys).2 h).1]

theorem play_score_le (inputs : List (List Nat)) :
    ∀ g : Game, g.score ≤ (play g inputs).1.score := by
  induction inputs with
  | nil => intro g; exact le_refl _
  | cons keys rest ih =>
    intro g
    have h := tick_score_le g keys
    unfold play
    rcases ht : tick g keys with ⟨g1, n1⟩
    rw [ht] at h
    cases n1
    · exact le_trans h (ih g1)
    · exact le_trans h (ih (new_life g1))
    · exact h

theorem brick_hit_continue (g : Game) (i : Nat) (h : 1 < g.brick_count) :
    brick_hit g i =
      ({ g with
          ball := brick_reflect g.ball (g.bricks i)
          brick_active := setAt g.brick_active i false
          score := g.score + 10
          out := g.out ++ [Event.display_game_info (g.score + 10) g.lives]
          brick_count := g.brick_count - 1 }, Next.loop) := by
  unfold brick_hit
  simp only []
  rw [if_neg (by omega)]

theorem brick_hit_level_complete (g : Game) (i : Nat) (h : g.brick_count ≤ 1) :
    (brick_hit g i).2 = Next.new_life
      ∧ (brick_hit g i).1.level = g.level + 1
      ∧ (∀ j, j < BRICK_ROWS * BRICK_COLS → (brick_hit g i).1.brick_active j = true)
      ∧ (∀ j, j < BRICK_ROWS * BRICK_COLS →
          (brick_hit g i).1.bricks j = layout_rect (j / BRICK_COLS) (j % BRICK_COLS))
      ∧ (brick_hit g i).1.brick_count = BRICK_ROWS * BRICK_COLS
      ∧ (brick_hit g i).1.score = g.score + 10
      ∧ (brick_hit g i).1.lives = g.lives
      ∧ (brick_hit g i).1.game_speed = (if g.game_speed > 10 then g.game_speed - 5 else 10)
      ∧ (brick_hit g i).1.out = g.out ++ [Event.display_game_info (g.score + 10) g.lives,
          Event.level_complete, Event.delay_milli 2000] := by
  unfold brick_hit
  simp only []
  rw [if_pos (by omega)]
  refine ⟨rfl, rfl, ?_, ?_, ?_, rfl, rfl, rfl, ?_⟩
  · intro j hj
    exact init_bricks_active _ _ j hj
  · intro j hj
    exact init_bricks_rect _ _ j hj
  · exact init_bricks_count _ _
  · simp

theorem tick_of_handling_new_life (g : Game) (keys : List Nat)
    (h : (brick_handling (move_phase g keys)).2 = Next.new_life) :
    tick g keys = brick_handling (move_phase g keys) := by
  unfold tick
  rcases hb : brick_handling (move_phase g keys) with ⟨g1, n1⟩
  rw [hb] at h
  simp only at h
  subst h
  rfl

theorem tick_last_brick (g : Game) (keys : List Nat) (hc : g.brick_count ≤ 1)
    (hh : hits_active_brick (move_phase g keys)) :
    ∃ i, i < BRICK_ROWS * BRICK_COLS ∧ (move_phase g keys).brick_active i = true
      ∧ colliding_with_brick (move_phase g keys).ball ((move_phase g keys).bricks i) = true
      ∧ tick g keys = brick_hit (move_phase g keys) i := by
  obtain ⟨i, hi, ha, hcol, hb⟩ := brick_handling_hit _ hh
  refine ⟨i, hi, ha, hcol, ?_⟩
  have hn : (brick_handling (move_phase g keys)).2 = Next.new_life := by
    rw [hb]
    exact (brick_hit_level_complete (move_phase g keys) i hc).1
  rw [tick_of_handling_new_life g keys hn, hb]

/-- C7: over a playing tick the score grows by exactly 10 when the scan
deactivates a brick (an active brick collides with the moved ball) and is
unchanged otherwise; an active flag goes from true to false only in such a
tick, and does so whenever the hit does not complete the level; the score is
0 at the reset of `init_game` and never decreases along a run of ticks up to
game over or win. -/
theorem C7_score_monotonicity (g : Game) (keys : List Nat) (inputs : List (List Nat)) :
    (hits_active_brick (move_phase g keys) → (tick g keys).1.score = g.score + 10)
      ∧ (¬ hits_active_brick (move_phase g keys) → (tick g keys).1.score = g.score)
      ∧ ((∃ i, g.brick_active i = true ∧ (tick g keys).1.brick_active i = false) →
          hits_active_brick (move_phase g keys))
      ∧ (hits_active_brick (move_phase g keys) → 1 < g.brick_count →
          ∃ i, i < BRICK_ROWS * BRICK_COLS ∧ g.brick_active i = true
            ∧ (tick g keys).1.brick_active i = false)
      ∧ (init_game g).score = 0
      ∧ g.score ≤ (tick g keys).1.score
      ∧ g.score ≤ (play g inputs).1.score := by
  refine ⟨(tick_score g keys).1, fun h => ((tick_score g keys).2 h).1, ?_, ?_, rfl,
    tick_score_le g keys, play_score_le inputs g⟩
  · rintro ⟨i, ha, hf⟩
    by_contra hno
    rw [((tick_score g keys).2 hno).2, ha] at hf
    exact absurd hf (by decide)
  · intro hh hc
    obtain ⟨i, hi, ha, _, hb⟩ := brick_handling_hit _ hh
    refine ⟨i, hi, ha, ?_⟩
    rw [(tick_score_of_handling g keys).2, hb, brick_hit_continue (move_phase g keys) i hc]
    simp [setAt]

/-- C7 at a tick in which the ball hits brick 0: the score goes from 0 to 10. -/
theorem C7_score_monotonicity_witness :
    hits_active_brick (move_phase (last_brick_state 1) [])
      ∧ (last_brick_state 1).score = 0
      ∧ (tick (last_brick_state 1) []).1.score = 0 + 10 :=
  ⟨⟨0, by decide, by decide, by decide⟩, rfl,
    (C7_score_monotonicity (last_brick_state 1) [] []).1 ⟨0, by decide, by decide, by decide⟩⟩

/-- C8: in a tick in which no active brick collides with the moved ball
(whatever inactive bricks the ball box overlaps), the brick handling changes
nothing: `brick_count`, the score, every active flag and the ball velocity are
as before, and control goes on in the loop. -/
theorem C8_inactive_bricks_are_not_deactivated (g : Game) (keys : List Nat)
    (h : ∀ i, i < BRICK_ROWS * BRICK_COLS → (move_phase g keys).brick_active i = true →
      colliding_with_brick (move_phase g keys).ball ((move_phase g keys).bricks i) = false) :
    brick_handling (move_phase g keys) = (move_phase g keys, Next.loop)
      ∧ (brick_handling (move_phase g keys)).1.brick_count = g.brick_count
      ∧ (brick_handling (move_phase g keys)).1.score = g.score
      ∧ (∀ i, (brick_handling (move_phase g keys)).1.brick_active i = g.brick_active i)
      ∧ (brick_handling (move_phase g keys)).1.ball.dir_x = (move_phase g keys).ball.dir_x
      ∧ (brick_handling (move_phase g keys)).1.ball.dir_y = (move_phase g keys).ball.dir_y
      ∧ (tick g keys).1.score = g.score
      ∧ (∀ i, (tick g keys).1.brick_active i = g.brick_active i) := by
  have hno : ¬ hits_active_brick (move_phase g keys) := by
    rintro ⟨i, hi, ha, hc⟩
    rw [h i hi ha] at hc
    exact absurd hc (by decide)
  have hb := brick_handling_no_hit _ hno
  refine ⟨hb, ?_, ?_, ?_, ?_, ?_, ((tick_score g keys).2 hno).1, ?_⟩
  · rw [hb]; rfl
  · rw [hb]; rfl
  · intro i; rw [hb]; rfl
  · rw [hb]
  · rw [hb]
  · intro i; rw [((tick_score g keys).2 hno).2]

set_option maxRecDepth 100000 in
/-- C8 at a tick in which the moved ball lies on the destroyed brick 0 and on
no other brick. -/
theorem C8_inactive_bricks_are_not_deactivated_witness :
    ((move_phase brick_gone_state []).brick_active 0 = false
        ∧ colliding_with_brick (move_phase brick_gone_state []).ball
            ((move_phase brick_gone_state []).bricks 0) = true)
      ∧ (∀ i, i < BRICK_ROWS * BRICK_COLS →
          (move_phase brick_gone_state []).brick_active i = true →
          colliding_with_brick (move_phase brick_gone_state []).ball
            ((move_phase brick_gone_state []).bricks i) = false)
      ∧ (brick_handling (move_phase brick_gone_state [])).1.brick_count = 31
      ∧ (brick_handling (move_phase brick_gone_state [])).1.score = 10 :=
  ⟨by decide, by decide,
    (C8_inactive_bricks_are_not_deactivated brick_gone_state [] (by decide)).2.1,
    (C8_inactive_bricks_are_not_deactivated brick_gone_state [] (by decide)).2.2.1⟩

/-! ## The win check is never reached with `brick_count <= 0` -/

theorem brick_hit_keeps_count_positive (g : Game) (i : Nat) :
    1 ≤ (brick_hit g i).1.brick_count ∧ wins (brick_hit g i).1.out = wins g.out := by
  by_cases h : g.brick_count ≤ 1
  · obtain ⟨_, _, _, _, hc, _, _, _, ho⟩ := brick_hit_level_complete g i h
    rw [hc, ho]
    refine ⟨by decide, ?_⟩
    simp [wins, List.any_append]
  · rw [brick_hit_continue g i (by omega)]
    refine ⟨?_, ?_⟩
    · show 1 ≤ g.brick_count - 1
      omega
    · simp [wins, List.any_append]

theorem brick_scan_keeps_count_positive (g : Game) (l : List Nat) (h : 1 ≤ g.brick_count) :
    1 ≤ (brick_scan g l).1.brick_count ∧ wins (brick_scan g l).1.out = wins g.out := by
  induction l with
  | nil => exact ⟨h, rfl⟩
  | cons i rest ih =>
    unfold brick_scan
    split_ifs
    · exact brick_hit_keeps_count_positive g i
    · exact ih

theorem wall_response_keeps_count (g : Game) :
    (wall_response g).1.brick_count = g.brick_count
      ∧ wins (wall_response g).1.out = wins g.out := by
  unfold wall_response
  simp only []
  split_ifs <;> simp [wins, List.any_append]

theorem win_check_of_count_positive (g : Game) (h : 1 ≤ g.brick_count) :
    (win_check g).2 = Next.loop ∧ (win_check g).1.brick_count = g.brick_count
      ∧ wins (win_check g).1.out = wins g.out := by
  unfold win_check
  rw [if_neg (by omega)]
  simp [wins, List.any_append]

theorem tick_keeps_count_positive (g : Game) (keys : List Nat) (h : 1 ≤ g.brick_count) :
    1 ≤ (tick g keys).1.brick_count ∧ wins (tick g keys).1.out = wins g.out := by
  have hb := brick_scan_keeps_count_positive (move_phase g keys)
    (List.range (BRICK_ROWS * BRICK_COLS)) h
  unfold tick
  unfold brick_handling
  rcases hs : brick_scan (move_phase g keys) (List.range (BRICK_ROWS * BRICK_COLS)) with ⟨g1, n1⟩
  rw [hs] at hb
  have hb2 : wins g1.out = wins g.out := hb.2
  cases n1
  · simp only []
    have hw := wall_response_keeps_count g1
    rcases hwr : wall_response g1 with ⟨g2, n2⟩
    rw [hwr] at hw
    have h2 : 1 ≤ g2.brick_count := by rw [hw.1]; exact hb.1
    have hw2 : wins g2.out = wins g.out := by rw [hw.2]; exact hb2
    cases n2
    · simp only []
      have hc := win_check_of_count_positive g2 h2
      exact ⟨by rw [hc.2.1]; exact h2, by rw [hc.2.2]; exact hw2⟩
    · exact ⟨h2, hw2⟩
    · exact ⟨h2, hw2⟩
  · exact ⟨hb.1, hb2⟩
  · exact ⟨hb.1, hb2⟩

theorem new_life_keeps_count (g : Game) :
    (new_life g).brick_count = g.brick_count ∧ wins (new_life g).out = wins g.out := by
  unfold new_life
  simp [wins, List.any_append]

theorem play_never_wins (inputs : List (List Nat)) :
    ∀ g : Game, 1 ≤ g.brick_count → wins (play g inputs).1.out = wins g.out := by
  induction inputs with
  | nil => intro g _; rfl
  | cons keys rest ih =>
    intro g hg
    have h := tick_keeps_count_positive g keys hg
    unfold play
    rcases ht : tick g keys with ⟨g1, n1⟩
    rw [ht] at h
    cases n1
    · simp only []
      rw [ih g1 h.1]; exact h.2
    · simp only []
      rw [ih (new_life g1) (by rw [(new_life_keeps_count g1).1]; exact h.1),
        (new_life_keeps_count g1).2]
      exact h.2
    · exact h.2

/-- The tick that destroys the last brick (`brick_count` 1 and an active brick
colliding with the moved ball) takes the level-complete branch, at any level. -/
theorem tick_last_brick_level_complete (g : Game) (keys : List Nat)
    (hc : g.brick_count = 1) (hh : hits_active_brick (move_phase g keys)) :
    (tick g keys).2 = Next.new_life
      ∧ (tick g keys).1.level = g.level + 1
      ∧ (∀ j, j < BRICK_ROWS * BRICK_COLS → (tick g keys).1.brick_active j = true)
      ∧ (∀ j, j < BRICK_ROWS * BRICK_COLS →
          (tick g keys).1.bricks j = layout_rect (j / BRICK_COLS) (j % BRICK_COLS))
      ∧ (tick g keys).1.brick_count = BRICK_ROWS * BRICK_COLS
      ∧ (tick g keys).1.score = g.score + 10
      ∧ (tick g keys).1.lives = g.lives
      ∧ (tick g keys).1.out = g.out ++ [Event.display_game_info (g.score + 10) g.lives,
          Event.level_complete, Event.delay_milli 2000] := by
  obtain ⟨i, _, _, _, ht⟩ := tick_last_brick g keys (le_of_eq hc) hh
  obtain ⟨h1, h2, h3, h4, h5, h6, h7, _, h9⟩ :=
    brick_hit_level_complete (move_phase g keys) i (le_of_eq hc)
  rw [ht]
  exact ⟨h1, h2, h3, h4, h5, h6, h7, h9⟩

/-- C9 (defect): in the state `last_brick_state 3` (level 3, one active brick
left, `brick_count` 1) the tick destroys the last brick and then takes the
level-complete branch: control goes to `new_life` with level 4 and a rebuilt
grid of 32 bricks, and no `game_over(score, true)` is issued. -/
theorem C9_last_brick_at_level_three_is_not_a_win :
    (last_brick_state 3).level = 3
      ∧ (last_brick_state 3).brick_count = 1
      ∧ hits_active_brick (move_phase (last_brick_state 3) [])
      ∧ (tick (last_brick_state 3) []).2 = Next.new_life
      ∧ (tick (last_brick_state 3) []).1.level = 4
      ∧ (tick (last_brick_state 3) []).1.brick_count = 32
      ∧ (tick (last_brick_state 3) []).1.out
          = [Event.display_game_info 0 3, Event.display_game_info 10 3,
              Event.level_complete, Event.delay_milli 2000]
      ∧ wins (tick (last_brick_state 3) []).1.out = false :=
  ⟨rfl, rfl, ⟨0, by decide, by decide, by decide⟩, by decide, by decide, by decide,
    by decide, by decide⟩

/-- C10: when the last active brick is destroyed at level 2, the tick takes the
level-complete transition: control goes to `new_life`, the level becomes 3,
all `BRICK_ROWS * BRICK_COLS` bricks are laid out again and active, the score
(with the 10 points of the last brick) and the lives are kept, and the only
facade calls of the tick are the score display, the level banner and its
delay, so `game_over` is not called; the block at `new_life` keeps all that. -/
theorem C10_last_brick_at_level_two_completes_level (g : Game) (keys : List Nat)
    (hl : g.level = 2) (hc : g.brick_count = 1)
    (hh : hits_active_brick (move_phase g keys)) :
    (tick g keys).2 = Next.new_life
      ∧ (tick g keys).1.level = 3
      ∧ (∀ j, j < BRICK_ROWS * BRICK_COLS → (tick g keys).1.brick_active j = true)
      ∧ (∀ j, j < BRICK_ROWS * BRICK_COLS →
          (tick g keys).1.bricks j = layout_rect (j / BRICK_COLS) (j % BRICK_COLS))
      ∧ (tick g keys).1.brick_count = BRICK_ROWS * BRICK_COLS
      ∧ (tick g keys).1.score = g.score + 10
      ∧ (tick g keys).1.lives = g.lives
      ∧ (tick g keys).1.out = g.out ++ [Event.display_game_info (g.score + 10) g.lives,
          Event.level_complete, Event.delay_milli 2000]
      ∧ (∀ s w, Event.game_over s w ∈ (tick g keys).1.out → Event.game_over s w ∈ g.out)
      ∧ (new_life (tick g keys).1).level = 3
      ∧ (new_life (tick g keys).1).score = g.score + 10
      ∧ (new_life (tick g keys).1).lives = g.lives
      ∧ (∀ j, j < BRICK_ROWS * BRICK_COLS → (new_life (tick g keys).1).brick_active j = true) := by
  obtain ⟨h1, h2, h3, h4, h5, h6, h7, h8⟩ := tick_last_brick_level_complete g keys hc hh
  rw [hl] at h2
  refine ⟨h1, h2, h3, h4, h5, h6, h7, h8, ?_, h2, h6, h7, h3⟩
  intro s w hmem
  rw [h8] at hmem
  simpa using hmem

/-- C10 at `last_brick_state 2`. -/
theorem C10_last_brick_at_level_two_completes_level_witness :
    ((last_brick_state 2).level = 2 ∧ (last_brick_state 2).brick_count = 1
        ∧ hits_active_brick (move_phase (last_brick_state 2) []))
      ∧ (tick (last_brick_state 2) []).2 = Next.new_life
      ∧ (tick (last_brick_state 2) []).1.level = 3 :=
  ⟨⟨rfl, rfl, ⟨0, by decide, by decide, by decide⟩⟩,
    (C10_last_brick_at_level_two_completes_level (last_brick_state 2) [] rfl rfl
      ⟨0, by decide, by decide, by decide⟩).1,
    (C10_last_brick_at_level_two_completes_level (last_brick_state 2) [] rfl rfl
      ⟨0, by decide, by decide, by decide⟩).2.1⟩

/-- The tick interval after the tick that destroys the last brick. -/
theorem tick_last_brick_game_speed (g : Game) (keys : List Nat)
    (hc : g.brick_count = 1) (hh : hits_active_brick (move_phase g keys)) :
    (tick g keys).1.game_speed = (if g.game_speed > 10 then g.game_speed - 5 else 10) := by
  obtain ⟨i, _, _, _, ht⟩ := tick_last_brick g keys (le_of_eq hc) hh
  rw [ht]
  exact (brick_hit_level_complete (move_phase g keys) i (le_of_eq hc)).2.2.2.2.2.2.2.1

/-- C11 (defect): the first level-complete transition of a game takes the tick
interval from the initial 12 ms to 7 ms, below the floor of 10 ms; the next
one takes it from 7 ms up to 10 ms, above its value before the transition. -/
theorem C11_speed_up_undershoots_floor :
    (init_game start_state).game_speed = 12
      ∧ (last_brick_state 1).game_speed = 12
      ∧ (tick (last_brick_state 1) []).2 = Next.new_life
      ∧ (tick (last_brick_state 1) []).1.game_speed = 7
      ∧ (tick (last_brick_state 1) []).1.game_speed < 10
      ∧ (tick { last_brick_state 2 with game_speed := 7 } []).2 = Next.new_life
      ∧ (tick { last_brick_state 2 with game_speed := 7 } []).1.game_speed = 10
      ∧ ({ last_brick_state 2 with game_speed := 7 } : Game).game_speed
          < (tick { last_brick_state 2 with game_speed := 7 } []).1.game_speed := by
  decide

/-! ## The ball box through a tick -/

theorem paddle_response_box (ball paddle : Object) :
    (paddle_response ball paddle).geo = ball.geo
      ∧ (paddle_response ball paddle).pos_x = ball.pos_x
      ∧ (paddle_response ball paddle).pos_y = ball.pos_y := by
  unfold paddle_response
  simp only []
  split_ifs <;> exact ⟨rfl, rfl, rfl⟩

theorem brick_reflect_box (ball : Object) (brick : Rect) :
    (brick_reflect ball brick).geo = ball.geo
      ∧ (brick_reflect ball brick).pos_x = ball.pos_x
      ∧ (brick_reflect ball brick).pos_y = ball.pos_y := by
  unfold brick_reflect
  simp only []
  split_ifs <;> exact ⟨rfl, rfl, rfl⟩

theorem brick_hit_frame (g : Game) (i : Nat) :
    (brick_hit g i).1.ball = brick_reflect g.ball (g.bricks i)
      ∧ (brick_hit g i).1.paddle = g.paddle
      ∧ (brick_hit g i).1.lives = g.lives := by
  unfold brick_hit
  simp only []
  split_ifs <;> exact ⟨rfl, rfl, rfl⟩

theorem brick_scan_box (g : Game) (l : List Nat) :
    (brick_scan g l).1.ball.geo = g.ball.geo
      ∧ (brick_scan g l).1.ball.pos_x = g.ball.pos_x
      ∧ (brick_scan g l).1.ball.pos_y = g.ball.pos_y
      ∧ (brick_scan g l).1.paddle = g.paddle
      ∧ (brick_scan g l).1.lives = g.lives := by
  induction l with
  | nil => exact ⟨rfl, rfl, rfl, rfl, rfl⟩
  | cons i rest ih =>
    unfold brick_scan
    split_ifs
    · obtain ⟨hb, hp, hl⟩ := brick_hit_frame g i
      obtain ⟨h1, h2, h3⟩ := brick_reflect_box g.ball (g.bricks i)
      rw [hb]
      exact ⟨h1, h2, h3, hp, hl⟩
    · exact ih

theorem move_phase_box (g : Game) (keys : List Nat) :
    (move_phase g keys).ball.geo = g.ball.geo
      ∧ (move_phase g keys).ball.pos_x = g.ball.pos_x + g.ball.dir_x
      ∧ (move_phase g keys).ball.pos_y = g.ball.pos_y + g.ball.dir_y
      ∧ (move_phase g keys).paddle = paddle_step g.paddle keys := by
  obtain ⟨h1, h2, h3⟩ := paddle_response_box (move_object g.ball) (paddle_step g.paddle keys)
  exact ⟨h1, h2, h3, rfl⟩

theorem brick_handling_box (g : Game) (keys : List Nat) :
    (brick_handling (move_phase g keys)).1.ball.geo = g.ball.geo
      ∧ (brick_handling (move_phase g keys)).1.ball.pos_x = g.ball.pos_x + g.ball.dir_x
      ∧ (brick_handling (move_phase g keys)).1.ball.pos_y = g.ball.pos_y + g.ball.dir_y
      ∧ (brick_handling (move_phase g keys)).1.paddle = paddle_step g.paddle keys
      ∧ (brick_handling (move_phase g keys)).1.lives = g.lives := by
  obtain ⟨h1, h2, h3, h4, h5⟩ :=
    brick_scan_box (move_phase g keys) (List.range (BRICK_ROWS * BRICK_COLS))
  obtain ⟨m1, m2, m3, m4⟩ := move_phase_box g keys
  unfold brick_handling
  exact ⟨h1.trans m1, h2.trans m2, h3.trans m3, h4.trans m4, h5⟩

theorem win_check_frame (g : Game) :
    (win_check g).1.ball = g.ball ∧ (win_check g).1.paddle = g.paddle
      ∧ (win_check g).1.lives = g.lives := by
  unfold win_check
  split_ifs <;> exact ⟨rfl, rfl, rfl⟩

theorem wall_response_paddle (g : Game) : (wall_response g).1.paddle = g.paddle := by
  unfold wall_response
  simp only []
  split_ifs <;> rfl

/-- A tick is the brick handling, then (if control is still in the loop) the
wall response, then (if control is still in the loop) the win check. -/
theorem tick_unfold (g : Game) (keys : List Nat) :
    ((brick_handling (move_phase g keys)).2 ≠ Next.loop →
        tick g keys = brick_handling (move_phase g keys))
      ∧ ((brick_handling (move_phase g keys)).2 = Next.loop →
          (wall_response (brick_handling (move_phase g keys)).1).2 ≠ Next.loop →
          tick g keys = wall_response (brick_handling (move_phase g keys)).1)
      ∧ ((brick_handling (move_phase g keys)).2 = Next.loop →
          (wall_response (brick_handling (move_phase g keys)).1).2 = Next.loop →
          tick g keys = win_check (wall_response (brick_handling (move_phase g keys)).1).1) := by
  unfold tick
  rcases hb : brick_handling (move_phase g keys) with ⟨g1, n1⟩
  cases n1
  · simp only []
    rcases hw : wall_response g1 with ⟨g2, n2⟩
    cases n2 <;> simp
  · simp
  · simp

theorem tick_paddle (g : Game) (keys : List Nat) :
    (tick g keys).1.paddle = paddle_step g.paddle keys := by
  obtain ⟨t1, t2, t3⟩ := tick_unfold g keys
  obtain ⟨_, _, _, hp, _⟩ := brick_handling_box g keys
  by_cases h1 : (brick_handling (move_phase g keys)).2 = Next.loop
  · by_cases h2 : (wall_response (brick_handling (move_phase g keys)).1).2 = Next.loop
    · rw [t3 h1 h2, (win_check_frame _).2.1, wall_response_paddle, hp]
    · rw [t2 h1 h2, wall_response_paddle, hp]
  · rw [t1 h1, hp]

theorem check_wall_collision_of_fits (ball : Object)
    (hx : fitsI16 ball.pos_x) (hX : fitsI16 (ball.pos_x + ball.geo.size_x))
    (hy : fitsI16 ball.pos_y) (hY : fitsI16 (ball.pos_y + ball.geo.size_y)) :
    check_wall_collision ball =
      (if ball.pos_x < 1 then { is_colliding := true, which := 'l' }
       else if ball.pos_x + ball.geo.size_x > SCREEN_WIDTH then
        { is_colliding := true, which := 'r' }
       else if ball.pos_y < 1 then { is_colliding := true, which := 'u' }
       else if ball.pos_y + ball.geo.size_y > SCREEN_HEIGHT then
        { is_colliding := true, which := 'd' }
       else { is_colliding := false, which := Char.ofNat 0 }) := by
  simp only [check_wall_collision, toI16_of_fits _ hx, toI16_of_fits _ hX, toI16_of_fits _ hy,
    toI16_of_fits _ hY]

theorem wall_response_loop_box (g : Game) (hgeo : g.ball.geo = ball_geometry)
    (hx : fitsI16 g.ball.pos_x) (hX : fitsI16 (g.ball.pos_x + 4))
    (hy : fitsI16 g.ball.pos_y) (hY : fitsI16 (g.ball.pos_y + 4))
    (hl : (wall_response g).2 = Next.loop) :
    1 ≤ (wall_response g).1.ball.pos_x
      ∧ (wall_response g).1.ball.pos_x + 4 ≤ SCREEN_WIDTH
      ∧ (1 ≤ g.ball.pos_x ∧ g.ball.pos_x + 4 ≤ SCREEN_WIDTH →
          1 ≤ (wall_response g).1.ball.pos_y
            ∧ (wall_response g).1.ball.pos_y + 4 ≤ SCREEN_HEIGHT)
      ∧ (¬ (1 ≤ g.ball.pos_x ∧ g.ball.pos_x + 4 ≤ SCREEN_WIDTH) →
          (wall_response g).1.ball.pos_y = g.ball.pos_y) := by
  have hsx : g.ball.geo.size_x = 4 := by rw [hgeo]; rfl
  have hsy : g.ball.geo.size_y = 4 := by rw [hgeo]; rfl
  have hc := check_wall_collision_of_fits g.ball hx (by rw [hsx]; exact hX) hy
    (by rw [hsy]; exact hY)
  rw [hsx, hsy] at hc
  by_cases h1 : g.ball.pos_x < 1
  · rw [if_pos h1] at hc
    have hw : wall_response g
        = ({ g with ball := { g.ball with pos_x := 1, dir_x := g.ball.dir_x * -1 } },
            Next.loop) := by
      simp [wall_response, hc]
    rw [hw]
    refine ⟨le_refl _, (by decide : (1 : Int) + 4 ≤ SCREEN_WIDTH), ?_, fun _ => rfl⟩
    intro h
    omega
  · rw [if_neg h1] at hc
    by_cases h2 : g.ball.pos_x + 4 > SCREEN_WIDTH
    · rw [if_pos h2] at hc
      have hw : wall_response g
          = ({ g with ball := { g.ball with
                  pos_x := SCREEN_WIDTH - g.ball.geo.size_x - 1
                  dir_x := g.ball.dir_x * -1 } }, Next.loop) := by
        simp [wall_response, hc]
      rw [hw]
      simp only [SCREEN_WIDTH] at h2
      refine ⟨?_, ?_, ?_, fun _ => rfl⟩
      · show 1 ≤ SCREEN_WIDTH - g.ball.geo.size_x - 1
        rw [hsx]; decide
      · show SCREEN_WIDTH - g.ball.geo.size_x - 1 + 4 ≤ SCREEN_WIDTH
        rw [hsx]; decide
      · intro h
        simp only [SCREEN_WIDTH] at h
        omega
    · rw [if_neg h2] at hc
      by_cases h3 : g.ball.pos_y < 1
      · rw [if_pos h3] at hc
        have hw : wall_response g
            = ({ g with ball := { g.ball with pos_y := 1, dir_y := g.ball.dir_y * -1 } },
                Next.loop) := by
          simp [wall_response, hc]
        rw [hw]
        simp only [SCREEN_WIDTH] at h2
        refine ⟨?_, ?_, fun _ => ⟨le_refl _, (by decide : (1 : Int) + 4 ≤ SCREEN_HEIGHT)⟩, ?_⟩
        · show 1 ≤ g.ball.pos_x
          omega
        · show g.ball.pos_x + 4 ≤ SCREEN_WIDTH
          simp only [SCREEN_WIDTH]; omega
        · intro h
          simp only [SCREEN_WIDTH] at h
          omega
      · rw [if_neg h3] at hc
        by_cases h4 : g.ball.pos_y + 4 > SCREEN_HEIGHT
        · rw [if_pos h4] at hc
          exfalso
          have hne : (wall_response g).2 ≠ Next.loop := by
            simp only [wall_response, hc, if_true, show ('d' : Char) ≠ 'u' by decide,
              show ('d' : Char) ≠ 'l' by decide, show ('d' : Char) ≠ 'r' by decide, if_false]
            split_ifs <;> simp
          exact hne hl
        · rw [if_neg h4] at hc
          have hw : wall_response g = (g, Next.loop) := by
            simp [wall_response, hc]
          rw [hw]
          simp only [SCREEN_WIDTH, SCREEN_HEIGHT] at h2 h4 ⊢
          refine ⟨by omega, by omega, fun _ => ⟨by omega, by omega⟩, ?_⟩
          intro h
          omega

set_option maxRecDepth 1000000 in
/-- C12 (as stated, refuted): the game played from `init_game` with the key
snapshots `top_corner_keys` reaches the ball at (1,2) with velocity (-3,-5);
the next tick, with no key pressed, moves it to (-2,-3), reports the left wall
only and continues the loop, leaving the ball at (1,-3), above the screen.
Likewise the game played with `corner_keys` reaches the ball at (1,57) with
velocity (-3,5); the next tick moves it to (-2,62), reports the left wall only
and continues the loop without a life lost, leaving the ball at (1,62): its
box reaches down to 66, below the screen height 64. -/
theorem C12_ball_below_screen_after_left_correction :
    ((play (new_life (init_game start_state)) top_corner_keys).2 = Next.loop
        ∧ (play (new_life (init_game start_state)) top_corner_keys).1.ball
            = { geo := ball_geometry, dir_x := -3, dir_y := -5, pos_x := 1, pos_y := 2 }
        ∧ (tick (play (new_life (init_game start_state)) top_corner_keys).1 []).2 = Next.loop
        ∧ (tick (play (new_life (init_game start_state)) top_corner_keys).1 []).1.ball
            = { geo := ball_geometry, dir_x := 3, dir_y := -5, pos_x := 1, pos_y := -3 }
        ∧ ¬ inside_screen
            (tick (play (new_life (init_game start_state)) top_corner_keys).1 []).1.ball)
      ∧ (play (new_life (init_game start_state)) corner_keys).2 = Next.loop
      ∧ (play (new_life (init_game start_state)) corner_keys).1.ball
          = { geo := ball_geometry, dir_x := -3, dir_y := 5, pos_x := 1, pos_y := 57 }
      ∧ (tick (play (new_life (init_game start_state)) corner_keys).1 []).2 = Next.loop
      ∧ (tick (play (new_life (init_game start_state)) corner_keys).1 []).1.lives = 3
      ∧ (tick (play (new_life (init_game start_state)) corner_keys).1 []).1.ball
          = { geo := ball_geometry, dir_x := 3, dir_y := 5, pos_x := 1, pos_y := 62 }
      ∧ ¬ inside_screen (tick (play (new_life (init_game start_state)) corner_keys).1 []).1.ball := by
  decide

/-- C12 (amended): at the end of every tick that continues the loop, the x
extent of the 4 x 4 ball lies within the screen (1 <= pos_x and
pos_x + 4 <= SCREEN_WIDTH); when the moved ball violated neither the left nor
the right bound, so does its y extent (1 <= pos_y, pos_y + 4 <= SCREEN_HEIGHT);
when it did, only x is corrected in that tick and pos_y is left as moved. -/
theorem C12_wall_correction_bounds (g : Game) (keys : List Nat)
    (hgeo : g.ball.geo = ball_geometry)
    (hx : fitsI16 (g.ball.pos_x + g.ball.dir_x))
    (hX : fitsI16 (g.ball.pos_x + g.ball.dir_x + 4))
    (hy : fitsI16 (g.ball.pos_y + g.ball.dir_y))
    (hY : fitsI16 (g.ball.pos_y + g.ball.dir_y + 4))
    (hl : (tick g keys).2 = Next.loop) :
    1 ≤ (tick g keys).1.ball.pos_x
      ∧ (tick g keys).1.ball.pos_x + 4 ≤ SCREEN_WIDTH
      ∧ (1 ≤ g.ball.pos_x + g.ball.dir_x ∧ g.ball.pos_x + g.ball.dir_x + 4 ≤ SCREEN_WIDTH →
          1 ≤ (tick g keys).1.ball.pos_y ∧ (tick g keys).1.ball.pos_y + 4 ≤ SCREEN_HEIGHT)
      ∧ (¬ (1 ≤ g.ball.pos_x + g.ball.dir_x ∧ g.ball.pos_x + g.ball.dir_x + 4 ≤ SCREEN_WIDTH) →
          (tick g keys).1.ball.pos_y = g.ball.pos_y + g.ball.dir_y) := by
  obtain ⟨t1, t2, t3⟩ := tick_unfold g keys
  obtain ⟨b1, b2, b3, _, _⟩ := brick_handling_box g keys
  by_cases h1 : (brick_handling (move_phase g keys)).2 = Next.loop
  · by_cases h2 : (wall_response (brick_handling (move_phase g keys)).1).2 = Next.loop
    · have hw := wall_response_loop_box (brick_handling (move_phase g keys)).1
        (by rw [b1]; exact hgeo) (by rw [b2]; exact hx) (by rw [b2]; exact hX)
        (by rw [b3]; exact hy) (by rw [b3]; exact hY) h2
      rw [b2, b3] at hw
      rw [t3 h1 h2, (win_check_frame _).1]
      exact hw
    · rw [t2 h1 h2] at hl
      exact absurd hl h2
  · rw [t1 h1] at hl
    exact absurd hl h1

/-- C12 (amended) at the ball at (1,57) with velocity (-3,5) in a fresh game. -/
theorem C12_wall_correction_bounds_witness :
    ((playing_state
          { geo := ball_geometry, dir_x := -3, dir_y := 5, pos_x := 1, pos_y := 57 }
          { geo := paddle_geometry, dir_x := 0, dir_y := 0, pos_x := 43, pos_y := 58 }).ball.geo
        = ball_geometry
      ∧ fitsI16 (1 + -3) ∧ fitsI16 (1 + -3 + 4) ∧ fitsI16 (57 + 5) ∧ fitsI16 (57 + 5 + 4)
      ∧ (tick (playing_state
          { geo := ball_geometry, dir_x := -3, dir_y := 5, pos_x := 1, pos_y := 57 }
          { geo := paddle_geometry, dir_x := 0, dir_y := 0, pos_x := 43, pos_y := 58 }) []).2
        = Next.loop)
      ∧ 1 ≤ (tick (playing_state
          { geo := ball_geometry, dir_x := -3, dir_y := 5, pos_x := 1, pos_y := 57 }
          { geo := paddle_geometry, dir_x := 0, dir_y := 0, pos_x := 43, pos_y := 58 }) []).1.ball.pos_x :=
  ⟨by decide,
    (C12_wall_correction_bounds (playing_state
      { geo := ball_geometry, dir_x := -3, dir_y := 5, pos_x := 1, pos_y := 57 }
      { geo := paddle_geometry, dir_x := 0, dir_y := 0, pos_x := 43, pos_y := 58 }) []
      rfl (by decide) (by decide) (by decide) (by decide) (by decide)).1⟩

/-! ## The paddle -/

theorem paddle_step_spec (paddle : Object) (keys : List Nat) :
    (1 ≤ paddle.pos_x + paddle_dx keys * SPEED
        ∧ paddle.pos_x + paddle_dx keys * SPEED + paddle.geo.size_x ≤ SCREEN_WIDTH →
        (paddle_step paddle keys).pos_x = paddle.pos_x + paddle_dx keys * SPEED)
      ∧ (¬ (1 ≤ paddle.pos_x + paddle_dx keys * SPEED
        ∧ paddle.pos_x + paddle_dx keys * SPEED + paddle.geo.size_x ≤ SCREEN_WIDTH) →
        (paddle_step paddle keys).pos_x = paddle.pos_x)
      ∧ (paddle_step paddle keys).pos_y = paddle.pos_y
      ∧ (paddle_step paddle keys).geo = paddle.geo
      ∧ (paddle_step paddle keys).dir_x = paddle_dx keys * SPEED
      ∧ (paddle_step paddle keys).dir_y = 0 := by
  unfold paddle_step
  simp only [set_object_speed, move_object, ge_iff_le]
  refine ⟨?_, ?_, ?_, ?_, ?_, ?_⟩
  · intro h
    rw [if_pos h]
  · intro h
    rw [if_neg h]
  · split_ifs <;> simp
  · split_ifs <;> rfl
  · split_ifs <;> rfl
  · split_ifs <;> rfl

theorem paddle_step_in_bounds (paddle : Object) (keys : List Nat)
    (h : paddle_in_bounds paddle) : paddle_in_bounds (paddle_step paddle keys) := by
  obtain ⟨s1, s2, s3, s4, _, _⟩ := paddle_step_spec paddle keys
  obtain ⟨hg, hl, hr, hy⟩ := h
  unfold paddle_in_bounds
  rw [s3, s4]
  refine ⟨hg, ?_, ?_, hy⟩
  · by_cases hc : 1 ≤ paddle.pos_x + paddle_dx keys * SPEED
        ∧ paddle.pos_x + paddle_dx keys * SPEED + paddle.geo.size_x ≤ SCREEN_WIDTH
    · rw [s1 hc]; exact hc.1
    · rw [s2 hc]; exact hl
  · by_cases hc : 1 ≤ paddle.pos_x + paddle_dx keys * SPEED
        ∧ paddle.pos_x + paddle_dx keys * SPEED + paddle.geo.size_x ≤ SCREEN_WIDTH
    · rw [s1 hc]; exact hc.2
    · rw [s2 hc]; exact hr

theorem new_life_paddle_in_bounds (g : Game) (hg : g.paddle.geo = paddle_geometry) :
    paddle_in_bounds (new_life g).paddle := by
  have hp : (new_life g).paddle =
      { geo := g.paddle.geo, dir_x := 0, dir_y := 0
        pos_x := Int.tdiv SCREEN_WIDTH 2 - Int.tdiv g.paddle.geo.size_x 2
        pos_y := SCREEN_HEIGHT - 6 } := rfl
  rw [hp, hg]
  decide

theorem play_paddle_in_bounds (inputs : List (List Nat)) :
    ∀ g : Game, paddle_in_bounds g.paddle → paddle_in_bounds (play g inputs).1.paddle := by
  induction inputs with
  | nil => intro g h; exact h
  | cons keys rest ih =>
    intro g h
    have hp : paddle_in_bounds (tick g keys).1.paddle := by
      rw [tick_paddle]
      exact paddle_step_in_bounds g.paddle keys h
    unfold play
    rcases ht : tick g keys with ⟨g1, n1⟩
    rw [ht] at hp
    cases n1
    · exact ih g1 hp
    · exact ih (new_life g1) (new_life_paddle_in_bounds g1 hp.1)
    · exact hp

/-- C13: the paddle step either moves the paddle by its new `dir_x` (the net
key intent times `SPEED`), when the moved paddle satisfies `1 <= pos_x` and
`pos_x + size_x <= SCREEN_WIDTH`, or leaves `pos_x` exactly as it was, and it
never changes `pos_y`; consequently, in every state reached by playing ticks
from the reset at `new_life`, whatever the keys, the paddle satisfies
`1 <= pos_x`, `pos_x + size_x <= SCREEN_WIDTH` and `pos_y = SCREEN_HEIGHT - 6`. -/
theorem C13_paddle_stays_in_bounds (g : Game) (keys : List Nat) (inputs : List (List Nat))
    (hg : g.paddle.geo = paddle_geometry) :
    (tick g keys).1.paddle = paddle_step g.paddle keys
      ∧ (paddle_step g.paddle keys).dir_x = paddle_dx keys * SPEED
      ∧ (1 ≤ g.paddle.pos_x + paddle_dx keys * SPEED
          ∧ g.paddle.pos_x + paddle_dx keys * SPEED + g.paddle.geo.size_x ≤ SCREEN_WIDTH →
          (paddle_step g.paddle keys).pos_x = g.paddle.pos_x + paddle_dx keys * SPEED)
      ∧ (¬ (1 ≤ g.paddle.pos_x + paddle_dx keys * SPEED
          ∧ g.paddle.pos_x + paddle_dx keys * SPEED + g.paddle.geo.size_x ≤ SCREEN_WIDTH) →
          (paddle_step g.paddle keys).pos_x = g.paddle.pos_x)
      ∧ (paddle_step g.paddle keys).pos_y = g.paddle.pos_y
      ∧ 1 ≤ (play (new_life g) inputs).1.paddle.pos_x
      ∧ (play (new_life g) inputs).1.paddle.pos_x
          + (play (new_life g) inputs).1.paddle.geo.size_x ≤ SCREEN_WIDTH
      ∧ (play (new_life g) inputs).1.paddle.pos_y = SCREEN_HEIGHT - 6 := by
  obtain ⟨s1, s2, s3, _, s5, _⟩ := paddle_step_spec g.paddle keys
  obtain ⟨_, p1, p2, p3⟩ :=
    play_paddle_in_bounds inputs (new_life g) (new_life_paddle_in_bounds g hg)
  exact ⟨tick_paddle g keys, s5, s1, s2, s3, p1, p2, p3⟩

/-- C13 on a fresh game with nine successive presses of the right key: the
paddle stops at 115, the last position with `pos_x + 10 <= 128`. -/
theorem C13_paddle_stays_in_bounds_witness :
    (init_game start_state).paddle.geo = paddle_geometry
      ∧ (play (new_life (init_game start_state))
          [[3], [3], [3], [3], [3], [3], [3], [3], [3]]).1.paddle.pos_x = 115
      ∧ 1 ≤ (play (new_life (init_game start_state))
          [[3], [3], [3], [3], [3], [3], [3], [3], [3]]).1.paddle.pos_x :=
  ⟨rfl, by decide,
    (C13_paddle_stays_in_bounds (init_game start_state) [] [[3], [3], [3], [3], [3], [3], [3], [3], [3]]
      rfl).2.2.2.2.2.1⟩

/-! ## The laid-out bricks -/

theorem layout_rect_values (row col : Nat) :
    layout_rect row col
      = { origin := { x := 4 + (col : Int) * 15, y := 4 + (row : Int) * 7 }
          dimen := { x := 12, y := 4 } } := by
  have hw : brick_width SCREEN_WIDTH 4 3 (BRICK_COLS : Nat) = 12 := by decide
  simp only [layout_rect, brick_origin_x, hw, BRICK_HEIGHT]
  norm_num

/-- A ball lower than the lowest brick row collides with no laid-out brick. -/
theorem no_brick_below (ball : Object) (row col : Nat) (hr : row < BRICK_ROWS)
    (h1 : 29 < ball.pos_y) (h2 : ball.pos_y ≤ 127) :
    colliding_with_brick ball (layout_rect row col) = false := by
  have hr4 : row < 4 := hr
  have h3 : ¬ toI8 ball.pos_y ≤ toI8 (4 + (row : Int) * 7 + 4) := by
    rw [toI8_of_fits _ (show fitsI8 ball.pos_y by unfold fitsI8; omega),
      toI8_of_fits _ (show fitsI8 (4 + (row : Int) * 7 + 4) by unfold fitsI8; omega)]
    omega
  simp [colliding_with_brick, layout_rect_values, h3]

theorem wall_response_bottom (g : Game)
    (hd : check_wall_collision g.ball = { is_colliding := true, which := 'd' }) :
    (2 ≤ g.lives →
        wall_response g =
          ({ g with
              lives := g.lives - 1
              out := g.out ++ [Event.display_game_info g.score (g.lives - 1),
                Event.delay_milli 1000] }, Next.new_life))
      ∧ (g.lives ≤ 1 →
        wall_response g =
          ({ g with
              lives := g.lives - 1
              out := g.out ++ [Event.display_game_info g.score (g.lives - 1),
                Event.game_over g.score false] }, Next.init_game)) := by
  have hne : ('d' : Char) ≠ 'u' ∧ ('d' : Char) ≠ 'l' ∧ ('d' : Char) ≠ 'r' := by decide
  constructor
  · intro h
    simp only [wall_response, hd, if_true, if_neg hne.1, if_neg hne.2.1, if_neg hne.2.2]
    rw [if_neg (by omega)]
    simp
  · intro h
    simp only [wall_response, hd, if_true, if_neg hne.1, if_neg hne.2.1, if_neg hne.2.2]
    rw [if_pos (by omega)]
    simp

theorem check_wall_collision_bottom (ball : Object)
    (hd : check_wall_collision ball = { is_colliding := true, which := 'd' }) :
    toI16 (ball.pos_y + ball.geo.size_y) > SCREEN_HEIGHT := by
  unfold check_wall_collision at hd
  simp only [] at hd
  split_ifs at hd with h1 h2 h3 h4
  · exact absurd hd (by decide)
  · exact absurd hd (by decide)
  · exact absurd hd (by decide)
  · exact h4
  · exact absurd hd (by decide)

/-- In a tick whose moved ball is reported at the bottom wall, no laid-out
brick is hit: the tick is the wall response on the state after the move. -/
theorem tick_bottom (g : Game) (keys : List Nat)
    (hgeo : g.ball.geo = ball_geometry)
    (hlay : ∀ i, i < BRICK_ROWS * BRICK_COLS →
      g.bricks i = layout_rect (i / BRICK_COLS) (i % BRICK_COLS))
    (hy : fitsI8 (g.ball.pos_y + g.ball.dir_y))
    (hd : check_wall_collision (move_phase g keys).ball = { is_colliding := true, which := 'd' }) :
    tick g keys = wall_response (move_phase g keys) := by
  obtain ⟨m1, _, m3, _⟩ := move_phase_box g keys
  have hb := check_wall_collision_bottom _ hd
  rw [m1, m3, hgeo] at hb
  have hlow : 60 < g.ball.pos_y + g.ball.dir_y := by
    unfold fitsI8 at hy
    rw [toI16_of_fits _ (by unfold fitsI16; simp only [ball_geometry]; omega)] at hb
    simp only [ball_geometry, SCREEN_HEIGHT] at hb
    omega
  have hno : ¬ hits_active_brick (move_phase g keys) := by
    rintro ⟨i, hi, _, hc⟩
    have hrow : i / BRICK_COLS < BRICK_ROWS := by
      have hi32 : i < 32 := hi
      show i / 8 < 4
      omega
    have hbr : (move_phase g keys).bricks i = layout_rect (i / BRICK_COLS) (i % BRICK_COLS) :=
      hlay i hi
    rw [hbr, no_brick_below _ _ _ hrow (by rw [m3]; omega)
      (by rw [m3]; unfold fitsI8 at hy; omega)] at hc
    exact absurd hc (by decide)
  have hbh := brick_handling_no_hit _ hno
  obtain ⟨_, t2, _⟩ := tick_unfold g keys
  have hne : (wall_response (move_phase g keys)).2 ≠ Next.loop := by
    by_cases hl : 2 ≤ (move_phase g keys).lives
    · rw [(wall_response_bottom _ hd).1 hl]; simp
    · rw [(wall_response_bottom _ hd).2 (by omega)]; simp
  rw [hbh] at t2
  exact t2 rfl hne

theorem redraw_fold (a : Nat → Bool) (l : List Nat) :
    ∀ (b : Nat → Rect) (i : Nat),
      (l.foldl (fun b j =>
          if a j then setAt b j (layout_rect (j / BRICK_COLS) (j % BRICK_COLS)) else b) b) i
        = if i ∈ l ∧ a i = true then layout_rect (i / BRICK_COLS) (i % BRICK_COLS) else b i := by
  induction l with
  | nil => intro b i; simp
  | cons j rest ih =>
    intro b i
    rw [List.foldl_cons, ih]
    by_cases hi : i ∈ rest ∧ a i = true
    · rw [if_pos hi, if_pos ⟨List.mem_cons_of_mem j hi.1, hi.2⟩]
    · rw [if_neg hi]
      by_cases hj : i = j
      · subst hj
        by_cases ha : a i = true
        · rw [if_pos ha, if_pos ⟨List.mem_cons_self i rest, ha⟩]
          simp [setAt]
        · rw [if_neg ha, if_neg (fun h => ha h.2)]
      · have hmem : ¬ (i ∈ j :: rest ∧ a i = true) := by
          rintro ⟨hm, ha⟩
          rcases List.mem_cons.mp hm with h | h
          · exact hj h
          · exact hi ⟨h, ha⟩
        rw [if_neg hmem]
        split_ifs
        · simp [setAt, hj]
        · rfl

/-- The redraw loop at `new_life` stores again, for every active brick, the
rectangle of the layout, and leaves the other entries alone. -/
theorem redraw_bricks_spec (bricks : Nat → Rect) (brick_active : Nat → Bool) (i : Nat) :
    redraw_bricks bricks brick_active i
      = if i < BRICK_ROWS * BRICK_COLS ∧ brick_active i = true then
          layout_rect (i / BRICK_COLS) (i % BRICK_COLS)
        else bricks i := by
  unfold redraw_bricks
  rw [redraw_fold]
  simp only [List.mem_range]

theorem redraw_bricks_of_layout (bricks : Nat → Rect) (brick_active : Nat → Bool)
    (hlay : ∀ i, i < BRICK_ROWS * BRICK_COLS →
      bricks i = layout_rect (i / BRICK_COLS) (i % BRICK_COLS)) (i : Nat) :
    redraw_bricks bricks brick_active i = bricks i := by
  rw [redraw_bricks_spec]
  split_ifs with h
  · exact (hlay i h.1).symm
  · rfl

/-- C14: when the moved ball is reported at the bottom wall and at least two
lives are left, the tick jumps to `new_life` with `lives` decreased by exactly
1 and with score, level, tick interval, `brick_count`, every active flag and
every stored brick rectangle unchanged; the block at `new_life` puts the ball
at (62,52) with velocity (4,-5) and the paddle at (59,58) with velocity (0,0)
and changes none of these.  With one life left the tick instead shows
`game_over(score, false)` and jumps to `init_game`. -/
theorem C14_life_lost_keeps_game_state (g : Game) (keys : List Nat)
    (hgeo : g.ball.geo = ball_geometry) (hpg : g.paddle.geo = paddle_geometry)
    (hlay : ∀ i, i < BRICK_ROWS * BRICK_COLS →
      g.bricks i = layout_rect (i / BRICK_COLS) (i % BRICK_COLS))
    (hy : fitsI8 (g.ball.pos_y + g.ball.dir_y))
    (hd : check_wall_collision (move_phase g keys).ball = { is_colliding := true, which := 'd' }) :
    (2 ≤ g.lives →
        (tick g keys).2 = Next.new_life
          ∧ (tick g keys).1.lives = g.lives - 1
          ∧ (tick g keys).1.score = g.score
          ∧ (tick g keys).1.level = g.level
          ∧ (tick g keys).1.game_speed = g.game_speed
          ∧ (tick g keys).1.brick_count = g.brick_count
          ∧ (∀ i, (tick g keys).1.brick_active i = g.brick_active i)
          ∧ (new_life (tick g keys).1).lives = g.lives - 1
          ∧ (new_life (tick g keys).1).score = g.score
          ∧ (new_life (tick g keys).1).level = g.level
          ∧ (new_life (tick g keys).1).game_speed = g.game_speed
          ∧ (new_life (tick g keys).1).brick_count = g.brick_count
          ∧ (∀ i, (new_life (tick g keys).1).brick_active i = g.brick_active i)
          ∧ (∀ i, (new_life (tick g keys).1).bricks i = g.bricks i)
          ∧ (new_life (tick g keys).1).ball
              = { geo := ball_geometry, dir_x := 4, dir_y := -5, pos_x := 62, pos_y := 52 }
          ∧ (new_life (tick g keys).1).paddle
              = { geo := paddle_geometry, dir_x := 0, dir_y := 0, pos_x := 59, pos_y := 58 })
      ∧ (g.lives = 1 →
          (tick g keys).2 = Next.init_game
            ∧ (tick g keys).1.out
                = g.out ++ [Event.display_game_info g.score 0, Event.game_over g.score false]) := by
  have ht := tick_bottom g keys hgeo hlay hy hd
  obtain ⟨mg, _, _, _⟩ := move_phase_box g keys
  obtain ⟨_, _, mg3, _⟩ := paddle_step_spec g.paddle keys
  constructor
  · intro hl
    have hw := (wall_response_bottom (move_phase g keys) hd).1 hl
    rw [ht, hw]
    refine ⟨rfl, rfl, rfl, rfl, rfl, rfl, fun _ => rfl, rfl, rfl, rfl, rfl, rfl, fun _ => rfl,
      ?_, ?_, ?_⟩
    · intro i
      exact redraw_bricks_of_layout g.bricks g.brick_active hlay i
    · show (reset_game_objects (move_phase g keys).ball (move_phase g keys).paddle).1 = _
      unfold reset_game_objects
      simp only [mg, hgeo]
      decide
    · show (reset_game_objects (move_phase g keys).ball (move_phase g keys).paddle).2 = _
      unfold reset_game_objects
      have hpg2 : (move_phase g keys).paddle.geo = paddle_geometry := by
        show (paddle_step g.paddle keys).geo = paddle_geometry
        rw [(paddle_step_spec g.paddle keys).2.2.2.1]
        exact hpg
      simp only [hpg2]
      decide
  · intro hl
    have hw := (wall_response_bottom (move_phase g keys) hd).2 (le_of_eq hl)
    rw [ht, hw]
    refine ⟨rfl, ?_⟩
    show g.out ++ [Event.display_game_info g.score (g.lives - 1), Event.game_over g.score false]
      = _
    rw [hl]
    rfl

set_option maxRecDepth 100000 in
/-- C14 at `falling_ball_state`: the tick loses one of three lives and jumps to
`new_life` with the score unchanged. -/
theorem C14_life_lost_keeps_game_state_witness :
    (falling_ball_state.ball.geo = ball_geometry
        ∧ falling_ball_state.paddle.geo = paddle_geometry
        ∧ (∀ i, i < BRICK_ROWS * BRICK_COLS →
            falling_ball_state.bricks i = layout_rect (i / BRICK_COLS) (i % BRICK_COLS))
        ∧ fitsI8 (58 + 5)
        ∧ check_wall_collision (move_phase falling_ball_state []).ball
            = { is_colliding := true, which := 'd' }
        ∧ (2 : Int) ≤ falling_ball_state.lives)
      ∧ (tick falling_ball_state []).2 = Next.new_life
      ∧ (tick falling_ball_state []).1.lives = 3 - 1
      ∧ (tick falling_ball_state []).1.score = 0 :=
  ⟨⟨rfl, rfl, by decide, by decide, by decide, by decide⟩,
    ((C14_life_lost_keeps_game_state falling_ball_state [] rfl rfl (by decide) (by decide)
      (by decide)).1 (by decide)).1,
    ((C14_life_lost_keeps_game_state falling_ball_state [] rfl rfl (by decide) (by decide)
      (by decide)).1 (by decide)).2.1,
    ((C14_life_lost_keeps_game_state falling_ball_state [] rfl rfl (by decide) (by decide)
      (by decide)).1 (by decide)).2.2.1⟩

/-- C15: both overlap tests are symmetric, for all positions and sizes and
with the `i8` locals as written: `colliding_with_paddle` gives the same
result with its two objects exchanged, and `colliding_with_brick` gives the
same result when the brick box is passed as the object and the ball box as
the rectangle. -/
theorem C15_overlap_symmetry (a b ball : Object) (brick : Rect) :
    colliding_with_paddle a b = colliding_with_paddle b a
      ∧ colliding_with_brick ball brick
          = colliding_with_brick (rect_as_object brick) (object_as_rect ball) := by
  constructor
  · rw [Bool.eq_iff_iff]
    simp only [colliding_with_paddle, Bool.and_eq_true, decide_eq_true_eq, ge_iff_le]
    tauto
  · rw [Bool.eq_iff_iff]
    simp only [colliding_with_brick, rect_as_object, object_as_rect, Bool.and_eq_true,
      decide_eq_true_eq, ge_iff_le]
    tauto

set_option maxRecDepth 100000 in
/-- C16 (defect): the arrays have `MAX_BRICKS = 30` elements but the grid has
`BRICK_ROWS * BRICK_COLS = 32` bricks: for row 3 and columns 6 and 7 the index
`row * BRICK_COLS + col` is 30 and 31, not smaller than `MAX_BRICKS`.
`init_bricks` stores at index 31, the loops of `main` run over all indices
below 32, and the scan reads and clears `brick_active[31]` when the ball hits
the last brick. -/
theorem C16_brick_index_exceeds_capacity :
    MAX_BRICKS < BRICK_ROWS * BRICK_COLS
      ∧ (3 < BRICK_ROWS ∧ 6 < BRICK_COLS ∧ ¬ 3 * BRICK_COLS + 6 < MAX_BRICKS)
      ∧ (3 < BRICK_ROWS ∧ 7 < BRICK_COLS ∧ ¬ 3 * BRICK_COLS + 7 < MAX_BRICKS)
      ∧ start_state.brick_active 31 = false
      ∧ (init_bricks start_state.bricks start_state.brick_active).brick_active 31 = true
      ∧ (init_bricks start_state.bricks start_state.brick_active).bricks 31
          = { origin := { x := 109, y := 25 }, dimen := { x := 12, y := 4 } }
      ∧ 31 ∈ List.range (BRICK_ROWS * BRICK_COLS)
      ∧ ¬ 31 < MAX_BRICKS
      ∧ last_index_state.brick_active 31 = true
      ∧ (tick last_index_state []).1.brick_active 31 = false := by
  decide

/-- The scan over the indices `s, s + 1, ..., s + n - 1` handles the first of
them whose brick is active and collides with the ball. -/
theorem brick_scan_first (g : Game) :
    ∀ (n s : Nat),
      (∃ i, s ≤ i ∧ i < s + n ∧ g.brick_active i = true
        ∧ colliding_with_brick g.ball (g.bricks i) = true) →
      ∃ i, s ≤ i ∧ i < s + n ∧ g.brick_active i = true
        ∧ colliding_with_brick g.ball (g.bricks i) = true
        ∧ (∀ j, s ≤ j → j < i →
            ¬ (g.brick_active j = true ∧ colliding_with_brick g.ball (g.bricks j) = true))
        ∧ brick_scan g (List.range' s n) = brick_hit g i := by
  intro n
  induction n with
  | zero =>
    rintro s ⟨i, h1, h2, _⟩
    omega
  | succ n ih =>
    intro s hex
    rw [List.range'_succ]
    by_cases hs : (g.brick_active s && colliding_with_brick g.ball (g.bricks s)) = true
    · refine ⟨s, le_refl s, by omega, (Bool.and_eq_true_iff.mp hs).1,
        (Bool.and_eq_true_iff.mp hs).2, ?_, ?_⟩
      · intro j h1 h2
        omega
      · simp only [brick_scan, hs, if_true]
    · have hrest : ∃ i, s + 1 ≤ i ∧ i < s + 1 + n ∧ g.brick_active i = true
          ∧ colliding_with_brick g.ball (g.bricks i) = true := by
        obtain ⟨i, h1, h2, ha, hc⟩ := hex
        have hne : i ≠ s := by
          rintro rfl
          exact hs (by simp [ha, hc])
        exact ⟨i, by omega, by omega, ha, hc⟩
      obtain ⟨i, h1, h2, ha, hc, hmin, hscan⟩ := ih (s + 1) hrest
      refine ⟨i, by omega, by omega, ha, hc, ?_, ?_⟩
      · intro j hj1 hj2
        by_cases hjs : j = s
        · subst hjs
          rintro ⟨ha2, hc2⟩
          exact hs (by simp [ha2, hc2])
        · exact hmin j (by omega) hj2
      · simp only [brick_scan, hs]
        exact hscan

theorem brick_handling_first (g : Game) (h : hits_active_brick g) :
    ∃ i, i < BRICK_ROWS * BRICK_COLS ∧ g.brick_active i = true
      ∧ colliding_with_brick g.ball (g.bricks i) = true
      ∧ (∀ j, j < i →
          ¬ (g.brick_active j = true ∧ colliding_with_brick g.ball (g.bricks j) = true))
      ∧ brick_handling g = brick_hit g i := by
  obtain ⟨i, hi, ha, hc⟩ := h
  obtain ⟨k, _, hk, ha, hc, hmin, hscan⟩ :=
    brick_scan_first g (BRICK_ROWS * BRICK_COLS) 0 ⟨i, Nat.zero_le i, by omega, ha, hc⟩
  refine ⟨k, by omega, ha, hc, fun j hj => hmin j (Nat.zero_le j) hj, ?_⟩
  unfold brick_handling
  rw [List.range_eq_range']
  exact hscan

/-- C17 (as stated, refuted): in `last_brick_state 1` brick 0 is the only
active brick and the moved ball lies on it; the tick deactivates brick 0,
which completes the level, and the flag of brick 1, false before the scan,
is true after it: the scan does not leave every other flag unchanged. -/
theorem C17_last_brick_hit_changes_other_flags :
    hits_active_brick (move_phase (last_brick_state 1) [])
      ∧ (move_phase (last_brick_state 1) []).brick_active 0 = true
      ∧ (move_phase (last_brick_state 1) []).brick_active 1 = false
      ∧ (brick_handling (move_phase (last_brick_state 1) [])).1.brick_active 1 = true
      ∧ (tick (last_brick_state 1) []).1.brick_active 1 = true :=
  ⟨⟨0, by decide, by decide, by decide⟩, by decide, by decide, by decide, by decide⟩

/-- C17 (amended): when some active brick collides with the moved ball, the
brick handling responds to exactly one brick, the one with the smallest index
among the active colliding bricks; if the hit does not complete the level
(`brick_count` above 1) the tick sets that flag to false and leaves every
other flag unchanged; if it completes the level, the grid is rebuilt and every
flag is true after the tick.  When no active brick collides, no flag changes. -/
theorem C17_first_hit_wins (g : Game) (keys : List Nat) :
    (hits_active_brick (move_phase g keys) →
        ∃ i, i < BRICK_ROWS * BRICK_COLS
          ∧ (move_phase g keys).brick_active i = true
          ∧ colliding_with_brick (move_phase g keys).ball ((move_phase g keys).bricks i) = true
          ∧ (∀ j, j < i →
              ¬ ((move_phase g keys).brick_active j = true
                ∧ colliding_with_brick (move_phase g keys).ball
                    ((move_phase g keys).bricks j) = true))
          ∧ brick_handling (move_phase g keys) = brick_hit (move_phase g keys) i
          ∧ (1 < g.brick_count →
              ∀ j, (tick g keys).1.brick_active j = if j = i then false else g.brick_active j)
          ∧ (g.brick_count ≤ 1 →
              ∀ j, j < BRICK_ROWS * BRICK_COLS → (tick g keys).1.brick_active j = true))
      ∧ (¬ hits_active_brick (move_phase g keys) →
          ∀ j, (tick g keys).1.brick_active j = g.brick_active j) := by
  constructor
  · intro hh
    obtain ⟨i, hi, ha, hc, hmin, hb⟩ := brick_handling_first _ hh
    refine ⟨i, hi, ha, hc, hmin, hb, ?_, ?_⟩
    · intro hcount j
      rw [(tick_score_of_handling g keys).2, hb, brick_hit_continue (move_phase g keys) i hcount]
      rfl
    · intro hcount j hj
      rw [(tick_score_of_handling g keys).2, hb]
      exact (brick_hit_level_complete (move_phase g keys) i hcount).2.2.1 j hj
  · intro hno j
    rw [((tick_score g keys).2 hno).2]

/-- C17 (amended) at `double_hit_state`, where the moved ball lies on the
bricks 0 and 8: a single brick is handled. -/
theorem C17_first_hit_wins_witness :
    hits_active_brick (move_phase double_hit_state [])
      ∧ (colliding_with_brick (move_phase double_hit_state []).ball
            ((move_phase double_hit_state []).bricks 8) = true)
      ∧ ∃ i, i < BRICK_ROWS * BRICK_COLS
          ∧ brick_handling (move_phase double_hit_state [])
            = brick_hit (move_phase double_hit_state []) i :=
  ⟨⟨0, by decide, by decide, by decide⟩, by decide,
    match (C17_first_hit_wins double_hit_state []).1 ⟨0, by decide, by decide, by decide⟩ with
    | ⟨i, hi, _, _, _, hb, _, _⟩ => ⟨i, hi, hb⟩⟩

/-! ## The side determination on a brick hit -/

theorem brick_reflect_of_fit (ball : Object) (brick : Rect)
    (h : reflect_locals_fit ball brick) :
    brick_reflect ball brick =
      if overlap_x ball brick < overlap_y ball brick then
        { ball with dir_x := ball.dir_x * -1 }
      else { ball with dir_y := ball.dir_y * -1 } := by
  obtain ⟨h1, h2, h3, h4, h5, h6, h7, h8⟩ := h
  unfold overlap_x at h7
  unfold overlap_y at h8
  simp only [brick_reflect, overlap_x, overlap_y, toI8_of_fits _ h1, toI8_of_fits _ h2,
    toI8_of_fits _ h3, toI8_of_fits _ h4, toI8_of_fits _ h5, toI8_of_fits _ h6,
    toI8_of_fits _ h7, toI8_of_fits _ h8]

/-- A 4 x 4 ball with `i8` coordinates that collides with a laid-out brick lies
within 4 of it on both axes. -/
theorem hit_position (ball : Object) (row col : Nat)
    (hgeo : ball.geo = ball_geometry) (hr : row < BRICK_ROWS) (hc : col < BRICK_COLS)
    (hx : fitsI8 ball.pos_x) (hy : fitsI8 ball.pos_y)
    (hit : colliding_with_brick ball (layout_rect row col) = true) :
    (col : Int) * 15 ≤ ball.pos_x ∧ ball.pos_x ≤ (col : Int) * 15 + 16
      ∧ (row : Int) * 7 ≤ ball.pos_y ∧ ball.pos_y ≤ (row : Int) * 7 + 8 := by
  have hr4 : row < 4 := hr
  have hc8 : col < 8 := hc
  unfold fitsI8 at hx hy
  simp only [colliding_with_brick, layout_rect_values, hgeo, ball_geometry, Bool.and_eq_true,
    decide_eq_true_eq, ge_iff_le] at hit
  obtain ⟨⟨⟨c1, c2⟩, c3⟩, c4⟩ := hit
  rw [toI8_of_fits _ (show fitsI8 ball.pos_x from hx),
    toI8_of_fits _ (show fitsI8 (4 + (col : Int) * 15 + 12) by unfold fitsI8; omega)] at c1
  rw [toI8_of_fits _ (show fitsI8 ball.pos_y from hy),
    toI8_of_fits _ (show fitsI8 (4 + (row : Int) * 7 + 4) by unfold fitsI8; omega)] at c3
  rw [toI8_of_fits _ (show fitsI8 (ball.pos_x + 4) by unfold fitsI8; omega),
    toI8_of_fits _ (show fitsI8 (4 + (col : Int) * 15) by unfold fitsI8; omega)] at c2
  rw [toI8_of_fits _ (show fitsI8 (ball.pos_y + 4) by unfold fitsI8; omega),
    toI8_of_fits _ (show fitsI8 (4 + (row : Int) * 7) by unfold fitsI8; omega)] at c4
  omega

theorem reflect_locals_fit_of_hit (ball : Object) (row col : Nat)
    (hgeo : ball.geo = ball_geometry) (hr : row < BRICK_ROWS) (hc : col < BRICK_COLS)
    (hx : fitsI8 ball.pos_x) (hy : fitsI8 ball.pos_y)
    (hit : colliding_with_brick ball (layout_rect row col) = true) :
    reflect_locals_fit ball (layout_rect row col) := by
  obtain ⟨p1, p2, p3, p4⟩ := hit_position ball row col hgeo hr hc hx hy hit
  have hr4 : row < 4 := hr
  have hc8 : col < 8 := hc
  have d2 : Int.tdiv 4 2 = 2 := by decide
  have d6 : Int.tdiv 12 2 = 6 := by decide
  have d8 : Int.tdiv (4 + 12) 2 = 8 := by decide
  have d4 : Int.tdiv (4 + 4) 2 = 4 := by decide
  simp only [reflect_locals_fit, overlap_x, overlap_y, layout_rect_values, hgeo, ball_geometry,
    d2, d6, d8, d4, fitsI8, c_abs]
  refine ⟨?_, ?_, ?_, ?_, ?_, ?_, ?_, ?_⟩ <;> (try split_ifs) <;> omega

/-- C18: the response to a hit on brick `i` is `brick_reflect`; when the values
of its `i8` locals are representable, it negates `dir_x` and keeps `dir_y` if
`overlap_x < overlap_y`, and negates `dir_y` and keeps `dir_x` if
`overlap_y < overlap_x` or on a tie.  The locals are representable whenever a
4 x 4 ball with `i8` coordinates collides with a brick of the layout. -/
theorem C18_reflect_smaller_overlap (g : Game) (i : Nat) :
    (brick_hit g i).1.ball = brick_reflect g.ball (g.bricks i)
      ∧ (reflect_locals_fit g.ball (g.bricks i) →
          (overlap_x g.ball (g.bricks i) < overlap_y g.ball (g.bricks i) →
              (brick_hit g i).1.ball.dir_x = -g.ball.dir_x
                ∧ (brick_hit g i).1.ball.dir_y = g.ball.dir_y)
            ∧ (overlap_y g.ball (g.bricks i) < overlap_x g.ball (g.bricks i) →
              (brick_hit g i).1.ball.dir_y = -g.ball.dir_y
                ∧ (brick_hit g i).1.ball.dir_x = g.ball.dir_x)
            ∧ (overlap_x g.ball (g.bricks i) = overlap_y g.ball (g.bricks i) →
              (brick_hit g i).1.ball.dir_y = -g.ball.dir_y
                ∧ (brick_hit g i).1.ball.dir_x = g.ball.dir_x))
      ∧ (g.ball.geo = ball_geometry → i < BRICK_ROWS * BRICK_COLS →
          g.bricks i = layout_rect (i / BRICK_COLS) (i % BRICK_COLS) →
          fitsI8 g.ball.pos_x → fitsI8 g.ball.pos_y →
          colliding_with_brick g.ball (g.bricks i) = true →
          reflect_locals_fit g.ball (g.bricks i)) := by
  have hb := (brick_hit_frame g i).1
  refine ⟨hb, ?_, ?_⟩
  · intro hfit
    rw [hb, brick_reflect_of_fit _ _ hfit]
    refine ⟨?_, ?_, ?_⟩
    · intro h
      rw [if_pos h]
      simp
    · intro h
      rw [if_neg (by omega)]
      simp
    · intro h
      rw [if_neg (by omega)]
      simp
  · intro hgeo hi hlay hx hy hit
    have hi32 : i < 32 := hi
    rw [hlay] at hit ⊢
    exact reflect_locals_fit_of_hit g.ball (i / BRICK_COLS) (i % BRICK_COLS) hgeo
      (by show i / 8 < 4; omega) (by show i % 8 < 8; omega) hx hy hit

/-- C18 at the ball at (10,8) on brick 0 (origin (4,4), 12 x 4): the overlaps
are 6 on x and 0 on y, and `dir_y` goes from -5 to 5. -/
theorem C18_reflect_smaller_overlap_witness :
    (reflect_locals_fit (move_phase double_hit_state []).ball
          ((move_phase double_hit_state []).bricks 0)
        ∧ overlap_y (move_phase double_hit_state []).ball
            ((move_phase double_hit_state []).bricks 0)
          < overlap_x (move_phase double_hit_state []).ball
              ((move_phase double_hit_state []).bricks 0))
      ∧ (brick_hit (move_phase double_hit_state []) 0).1.ball.dir_y = - -5
      ∧ (brick_hit (move_phase double_hit_state []) 0).1.ball.dir_x = 4 :=
  ⟨by decide,
    ((C18_reflect_smaller_overlap (move_phase double_hit_state []) 0).2.1 (by decide)).2.1
      (by decide)⟩

/-- C19: on a ball-paddle hit with the paddle of width 10 (the zone limits
`w/5`, `2w/5`, `3w/5`, `4w/5` are 2, 4, 6, 8) and `hit_pos = ball.pos_x -
paddle.pos_x`, the response sets `dir_y` to `-|dir_y|` and `dir_x` to -3, -2,
the old value (1 if that was 0), 2 or 3 according to the zone of `hit_pos`;
the resulting `dir_x` is never 0 and, for a non-zero incoming `dir_y`, the
resulting `dir_y` is negative with the same absolute value.  The playing loop
applies the response to the moved ball and the stepped paddle. -/
theorem C19_paddle_steering (ball paddle : Object) (g : Game) (keys : List Nat)
    (hw : paddle.geo.size_x = 10) (hit : colliding_with_paddle ball paddle = true) :
    (paddle_response ball paddle).dir_y = -(c_abs ball.dir_y)
      ∧ (ball.pos_x - paddle.pos_x < 2 → (paddle_response ball paddle).dir_x = -3)
      ∧ (2 ≤ ball.pos_x - paddle.pos_x → ball.pos_x - paddle.pos_x < 4 →
          (paddle_response ball paddle).dir_x = -2)
      ∧ (4 ≤ ball.pos_x - paddle.pos_x → ball.pos_x - paddle.pos_x < 6 →
          (ball.dir_x ≠ 0 → (paddle_response ball paddle).dir_x = ball.dir_x)
            ∧ (ball.dir_x = 0 → (paddle_response ball paddle).dir_x = 1))
      ∧ (6 ≤ ball.pos_x - paddle.pos_x → ball.pos_x - paddle.pos_x < 8 →
          (paddle_response ball paddle).dir_x = 2)
      ∧ (8 ≤ ball.pos_x - paddle.pos_x → (paddle_response ball paddle).dir_x = 3)
      ∧ (paddle_response ball paddle).dir_x ≠ 0
      ∧ (ball.dir_y ≠ 0 →
          (paddle_response ball paddle).dir_y < 0
            ∧ c_abs (paddle_response ball paddle).dir_y = c_abs ball.dir_y)
      ∧ (move_phase g keys).ball
          = paddle_response (move_object g.ball) (paddle_step g.paddle keys) := by
  have d1 : Int.tdiv 10 5 = 2 := by decide
  have d2 : Int.tdiv (10 * 2) 5 = 4 := by decide
  have d3 : Int.tdiv (10 * 3) 5 = 6 := by decide
  have d4 : Int.tdiv (10 * 4) 5 = 8 := by decide
  have hy : (paddle_response ball paddle).dir_y = -(c_abs ball.dir_y) := by
    simp only [paddle_response, hit, if_true, hw, d1, d2, d3, d4]
    split_ifs <;> rfl
  refine ⟨hy, ?_, ?_, ?_, ?_, ?_, ?_, ?_, rfl⟩
  · intro h
    simp only [paddle_response, hit, if_true, hw, d1, d2, d3, d4]
    rw [if_pos h]
  · intro h1 h2
    simp only [paddle_response, hit, if_true, hw, d1, d2, d3, d4]
    rw [if_neg (by omega), if_pos h2]
  · intro h1 h2
    simp only [paddle_response, hit, if_true, hw, d1, d2, d3, d4]
    rw [if_neg (by omega), if_neg (by omega), if_pos h2]
    constructor
    · intro hne
      rw [if_neg hne]
    · intro h0
      rw [if_pos h0]
  · intro h1 h2
    simp only [paddle_response, hit, if_true, hw, d1, d2, d3, d4]
    rw [if_neg (by omega), if_neg (by omega), if_neg (by omega), if_pos h2]
  · intro h1
    simp only [paddle_response, hit, if_true, hw, d1, d2, d3, d4]
    rw [if_neg (by omega), if_neg (by omega), if_neg (by omega), if_neg (by omega)]
  · simp only [paddle_response, hit, if_true, hw, d1, d2, d3, d4]
    split_ifs with a b c e f <;> simp
    exact e
  · intro hne
    rw [hy]
    unfold c_abs
    split_ifs <;> constructor <;> omega

/-- C19 at the ball at (63,56) with velocity (0,5) on the paddle at (59,58):
`hit_pos` is 4, the centre zone, so `dir_x` becomes 1 and `dir_y` becomes -5. -/
theorem C19_paddle_steering_witness :
    (paddle_geometry.size_x = 10
        ∧ colliding_with_paddle
            { geo := ball_geometry, dir_x := 0, dir_y := 5, pos_x := 63, pos_y := 56 }
            { geo := paddle_geometry, dir_x := 0, dir_y := 0, pos_x := 59, pos_y := 58 } = true)
      ∧ (paddle_response
            { geo := ball_geometry, dir_x := 0, dir_y := 5, pos_x := 63, pos_y := 56 }
            { geo := paddle_geometry, dir_x := 0, dir_y := 0, pos_x := 59, pos_y := 58 }).dir_y
          = -(c_abs 5)
      ∧ (paddle_response
            { geo := ball_geometry, dir_x := 0, dir_y := 5, pos_x := 63, pos_y := 56 }
            { geo := paddle_geometry, dir_x := 0, dir_y := 0, pos_x := 59, pos_y := 58 }).dir_x
          ≠ 0 :=
  ⟨by decide,
    (C19_paddle_steering
      { geo := ball_geometry, dir_x := 0, dir_y := 5, pos_x := 63, pos_y := 56 }
      { geo := paddle_geometry, dir_x := 0, dir_y := 0, pos_x := 59, pos_y := 58 }
      start_state [] rfl (by decide)).1,
    (C19_paddle_steering
      { geo := ball_geometry, dir_x := 0, dir_y := 5, pos_x := 63, pos_y := 56 }
      { geo := paddle_geometry, dir_x := 0, dir_y := 0, pos_x := 59, pos_y := 58 }
      start_state [] rfl (by decide)).2.2.2.2.2.2.1⟩

theorem colliding_with_layout_brick_iff (ball : Object) (row col : Nat)
    (hgeo : ball.geo = ball_geometry) (hr : row < BRICK_ROWS) (hc : col < BRICK_COLS)
    (hin : inside_screen ball) :
    colliding_with_brick ball (layout_rect row col) = true
      ↔ box_meets_rect ball (layout_rect row col) := by
  have hr4 : row < 4 := hr
  have hc8 : col < 8 := hc
  simp only [inside_screen, hgeo, ball_geometry, SCREEN_WIDTH, SCREEN_HEIGHT] at hin
  obtain ⟨i1, i2, i3, i4⟩ := hin
  simp only [colliding_with_brick, box_meets_rect, intervals_intersect, layout_rect_values, hgeo,
    ball_geometry, Bool.and_eq_true, decide_eq_true_eq, ge_iff_le]
  rw [toI8_of_fits _ (show fitsI8 ball.pos_x by unfold fitsI8; omega),
    toI8_of_fits _ (show fitsI8 (4 + (col : Int) * 15 + 12) by unfold fitsI8; omega),
    toI8_of_fits _ (show fitsI8 ball.pos_y by unfold fitsI8; omega),
    toI8_of_fits _ (show fitsI8 (4 + (row : Int) * 7 + 4) by unfold fitsI8; omega),
    toI8_of_fits _ (show fitsI8 (ball.pos_y + 4) by unfold fitsI8; omega),
    toI8_of_fits _ (show fitsI8 (4 + (col : Int) * 15) by unfold fitsI8; omega),
    toI8_of_fits _ (show fitsI8 (4 + (row : Int) * 7) by unfold fitsI8; omega)]
  by_cases hx : ball.pos_x ≤ 123
  · rw [toI8_of_fits _ (show fitsI8 (ball.pos_x + 4) by unfold fitsI8; omega)]
    constructor
    · rintro ⟨⟨⟨c1, c2⟩, c3⟩, c4⟩
      exact ⟨⟨c1, c2⟩, c3, c4⟩
    · rintro ⟨⟨c1, c2⟩, c3, c4⟩
      exact ⟨⟨⟨c1, c2⟩, c3⟩, c4⟩
  · constructor
    · rintro ⟨⟨⟨c1, _⟩, _⟩, _⟩
      omega
    · rintro ⟨⟨c1, _⟩, _, _⟩
      omega

/-- C20: for every brick laid out by `init_bricks` and every 4 x 4 ball whose
box lies inside the screen, `colliding_with_brick`, with its `i8` locals as
written, is true exactly when the closed box of the ball and the closed box of
the brick intersect on both axes. -/
theorem C20_colliding_with_brick_is_box_overlap (bricks : Nat → Rect)
    (brick_active : Nat → Bool) (i : Nat) (ball : Object)
    (hi : i < BRICK_ROWS * BRICK_COLS) (hgeo : ball.geo = ball_geometry)
    (hin : inside_screen ball) :
    colliding_with_brick ball ((init_bricks bricks brick_active).bricks i) = true
      ↔ box_meets_rect ball ((init_bricks bricks brick_active).bricks i) := by
  have hi32 : i < 32 := hi
  rw [init_bricks_rect bricks brick_active i hi]
  exact colliding_with_layout_brick_iff ball (i / BRICK_COLS) (i % BRICK_COLS) hgeo
    (by show i / 8 < 4; omega) (by show i % 8 < 8; omega) hin

/-- C20 at the ball at (124,25), whose right edge is the screen edge 128, and
the last brick (origin (109,25), 12 x 4): the boxes do not meet and the test
is false, although `ball_max_x` wraps. -/
theorem C20_colliding_with_brick_is_box_overlap_witness :
    (31 < BRICK_ROWS * BRICK_COLS
        ∧ inside_screen { geo := ball_geometry, dir_x := 4, dir_y := -5, pos_x := 124, pos_y := 25 })
      ∧ (colliding_with_brick
            { geo := ball_geometry, dir_x := 4, dir_y := -5, pos_x := 124, pos_y := 25 }
            ((init_bricks start_state.bricks start_state.brick_active).bricks 31) = true
          ↔ box_meets_rect
            { geo := ball_geometry, dir_x := 4, dir_y := -5, pos_x := 124, pos_y := 25 }
            ((init_bricks start_state.bricks start_state.brick_active).bricks 31)) :=
  ⟨by decide,
    C20_colliding_with_brick_is_box_overlap start_state.bricks start_state.brick_active 31
      { geo := ball_geometry, dir_x := 4, dir_y := -5, pos_x := 124, pos_y := 25 }
      (by decide) rfl (by decide)⟩

/-! ## The brick counter -/

theorem countP_setAt_false (a : Nat → Bool) (i : Nat) :
    ∀ l : List Nat, l.Nodup →
      l.countP (fun j => setAt a i false j) + (if i ∈ l ∧ a i = true then 1 else 0)
        = l.countP (fun j => a j) := by
  intro l
  induction l with
  | nil => intro _; simp
  | cons j rest ih =>
    intro hnd
    obtain ⟨hj, hrest⟩ := List.nodup_cons.mp hnd
    have ih2 := ih hrest
    have e1 : (j :: rest).countP (fun k => setAt a i false k)
        = rest.countP (fun k => setAt a i false k)
          + (if setAt a i false j = true then 1 else 0) := List.countP_cons _ _ _
    have e2 : (j :: rest).countP (fun k => a k)
        = rest.countP (fun k => a k) + (if a j = true then 1 else 0) :=
      List.countP_cons _ _ _
    rw [e1, e2]
    by_cases hji : j = i
    · subst hji
      have hnot : ¬ (j ∈ rest ∧ a j = true) := fun h => hj h.1
      rw [if_neg hnot] at ih2
      have h1 : (if setAt a j false j = true then 1 else 0) = 0 := by simp [setAt]
      have h2 : (if j ∈ j :: rest ∧ a j = true then 1 else 0)
          = (if a j = true then 1 else 0) := by simp
      rw [h1, h2]
      omega
    · have hs : setAt a i false j = a j := by simp [setAt, hji]
      have hmem : (i ∈ j :: rest ∧ a i = true) ↔ (i ∈ rest ∧ a i = true) := by
        constructor
        · rintro ⟨hm, ha⟩
          rcases List.mem_cons.mp hm with h | h
          · exact absurd h.symm hji
          · exact ⟨h, ha⟩
        · rintro ⟨hm, ha⟩
          exact ⟨List.mem_cons_of_mem j hm, ha⟩
      have h2 : (if i ∈ j :: rest ∧ a i = true then 1 else 0)
          = (if i ∈ rest ∧ a i = true then 1 else 0) := if_congr hmem rfl rfl
      rw [hs, h2]
      omega

/-- Clearing the flag of an active brick lowers the number of active bricks by
one. -/
theorem active_count_setAt_false (a : Nat → Bool) (i : Nat)
    (hi : i < BRICK_ROWS * BRICK_COLS) (ha : a i = true) :
    active_count (setAt a i false) + 1 = active_count a := by
  have h := countP_setAt_false a i (List.range (BRICK_ROWS * BRICK_COLS))
    (List.nodup_range _)
  rw [if_pos ⟨List.mem_range.mpr hi, ha⟩] at h
  exact h

theorem active_count_of_all_active (a : Nat → Bool)
    (h : ∀ i, i < BRICK_ROWS * BRICK_COLS → a i = true) :
    active_count a = BRICK_ROWS * BRICK_COLS := by
  unfold active_count
  have hl : (List.range (BRICK_ROWS * BRICK_COLS)).countP (fun i => a i)
      = (List.range (BRICK_ROWS * BRICK_COLS)).length :=
    List.countP_eq_length.mpr (fun i hi => h i (List.mem_range.mp hi))
  rw [hl, List.length_range]

theorem init_bricks_count_matches (bricks : Nat → Rect) (brick_active : Nat → Bool) :
    (init_bricks bricks brick_active).brick_count
      = (active_count (init_bricks bricks brick_active).brick_active : Int) := by
  rw [active_count_of_all_active _ (init_bricks_active bricks brick_active), init_bricks_count]
  rfl

theorem brick_hit_count_matches (g : Game) (i : Nat) (hi : i < BRICK_ROWS * BRICK_COLS)
    (ha : g.brick_active i = true) (hm : count_matches g) :
    count_matches (brick_hit g i).1 := by
  unfold count_matches at hm ⊢
  by_cases hc : g.brick_count ≤ 1
  · obtain ⟨_, _, hall, _, hcount, _⟩ := brick_hit_level_complete g i hc
    rw [hcount, active_count_of_all_active _ hall]
    rfl
  · rw [brick_hit_continue g i (by omega)]
    show g.brick_count - 1 = (active_count (setAt g.brick_active i false) : Int)
    have h := active_count_setAt_false g.brick_active i hi ha
    omega

theorem brick_handling_count_matches (g : Game) (hm : count_matches g) :
    count_matches (brick_handling g).1 := by
  by_cases hh : hits_active_brick g
  · obtain ⟨i, hi, ha, _, hb⟩ := brick_handling_hit g hh
    rw [hb]
    exact brick_hit_count_matches g i hi ha hm
  · rw [brick_handling_no_hit g hh]
    exact hm

theorem win_check_count (g : Game) : (win_check g).1.brick_count = g.brick_count := by
  unfold win_check
  split_ifs <;> rfl

theorem tick_count_of_handling (g : Game) (keys : List Nat) :
    (tick g keys).1.brick_count = (brick_handling (move_phase g keys)).1.brick_count := by
  obtain ⟨t1, t2, t3⟩ := tick_unfold g keys
  by_cases h1 : (brick_handling (move_phase g keys)).2 = Next.loop
  · by_cases h2 : (wall_response (brick_handling (move_phase g keys)).1).2 = Next.loop
    · rw [t3 h1 h2, win_check_count, (wall_response_keeps_count _).1]
    · rw [t2 h1 h2, (wall_response_keeps_count _).1]
  · rw [t1 h1]

theorem tick_count_matches (g : Game) (keys : List Nat) (hm : count_matches g) :
    count_matches (tick g keys).1 := by
  have hb : count_matches (brick_handling (move_phase g keys)).1 :=
    brick_handling_count_matches (move_phase g keys) hm
  unfold count_matches at hb ⊢
  rw [tick_count_of_handling, (tick_score_of_handling g keys).2]
  exact hb

theorem init_game_count_matches (g : Game) : count_matches (init_game g) :=
  init_bricks_count_matches g.bricks g.brick_active

theorem new_life_count_matches (g : Game) (hm : count_matches g) :
    count_matches (new_life g) := hm

theorem play_count_matches (inputs : List (List Nat)) :
    ∀ g : Game, count_matches g → count_matches (play g inputs).1 := by
  induction inputs with
  | nil => intro g h; exact h
  | cons keys rest ih =>
    intro g h
    have ht := tick_count_matches g keys h
    unfold play
    rcases hk : tick g keys with ⟨g1, n1⟩
    rw [hk] at ht
    cases n1
    · exact ih g1 ht
    · exact ih (new_life g1) (new_life_count_matches g1 ht)
    · exact ht

/-- C21: `init_bricks` marks every one of the `BRICK_ROWS * BRICK_COLS` bricks
active and returns exactly that number, which is the number of active flags;
the equality of `brick_count` and the number of indices below
`BRICK_ROWS * BRICK_COLS` with a true flag is kept by every playing tick and
by the block at `new_life`, so it holds after every tick of every game played
from `init_game`. -/
theorem C21_brick_count_is_number_of_active_bricks (bricks : Nat → Rect)
    (brick_active : Nat → Bool) (g : Game) (keys : List Nat) (inputs : List (List Nat)) :
    (∀ i, i < BRICK_ROWS * BRICK_COLS → (init_bricks bricks brick_active).brick_active i = true)
      ∧ (init_bricks bricks brick_active).brick_count = BRICK_ROWS * BRICK_COLS
      ∧ (init_bricks bricks brick_active).brick_count
          = (active_count (init_bricks bricks brick_active).brick_active : Int)
      ∧ (init_game g).brick_count = (active_count (init_game g).brick_active : Int)
      ∧ (g.brick_count = (active_count g.brick_active : Int) →
          (tick g keys).1.brick_count = (active_count (tick g keys).1.brick_active : Int))
      ∧ (play (new_life (init_game g)) inputs).1.brick_count
          = (active_count (play (new_life (init_game g)) inputs).1.brick_active : Int) := by
  refine ⟨init_bricks_active bricks brick_active, init_bricks_count bricks brick_active,
    init_bricks_count_matches bricks brick_active, init_game_count_matches g,
    fun h => tick_count_matches g keys h, ?_⟩
  exact play_count_matches inputs (new_life (init_game g))
    (new_life_count_matches _ (init_game_count_matches g))

set_option maxRecDepth 100000 in
/-- C21 at `double_hit_state` (32 active bricks, `brick_count` 32), where the
tick destroys brick 0: the counter and the number of active flags are both 31
afterwards. -/
theorem C21_brick_count_is_number_of_active_bricks_witness :
    (double_hit_state.brick_count = (active_count double_hit_state.brick_active : Int)
        ∧ double_hit_state.brick_count = 32)
      ∧ (tick double_hit_state []).1.brick_count = 31
      ∧ (tick double_hit_state []).1.brick_count
          = (active_count (tick double_hit_state []).1.brick_active : Int) :=
  ⟨by decide, by decide,
    (C21_brick_count_is_number_of_active_bricks start_state.bricks start_state.brick_active
      double_hit_state [] []).2.2.2.2.1 (by decide)⟩

end Breakout
